import Mathlib

/-!
Verification of the vibe-coder-3d automation scripts.

This file shallowly embeds the repository's Python scripts in Lean 4 and
proves the spec's claims about them:

* `src/scripts/blender/convert-low-poly.py` — the command-line argument
  resolver (module level, lines 9-172), the import dispatch (lines 179-186),
  the texture classification/resize pass (lines 246-330) and the export
  branches (lines 408-518), modelled as pure functions over the token list
  and an abstract scene value.
* `src/scripts/apply-shaded-texture.py` — the same outline, coarser.
* `src/rust/engine/scripts/generate_lod_performance_scene.py` — the JSON
  fixture generator, modelled over a JSON value type.

Python builtins used by the scripts (`int`, `float`, `str.lower`,
`str.strip`, `str.endswith`, `os.path.splitext`, `list.index`) are given
executable Lean models for the fragment the scripts exercise.  Python
floats are modelled as exact rationals: every literal appearing in the
scripts (0.05, 0.15, 0.5, ...) and every arithmetic step performed on them
is decimal/dyadic and exact, so the rational model agrees with IEEE
evaluation wherever a claim looks.
-/

namespace Vibe

/-- The ASCII whitespace characters stripped by Python str.strip and by the
int()/float() converters.  Python also strips Unicode whitespace; that lies
outside this string model, so theorems that rely on a strip or parse
FAILING carry an allAscii hypothesis on the token. -/
def pySpace (c : Char) : Bool :=
  (c == ' ') || (c == '\t') || (c == '\n') || (c == '\r') || (c == '\x0b') || (c == '\x0c')

/-- Strip ASCII whitespace from both ends of a character list. -/
def stripWs (cs : List Char) : List Char :=
  ((cs.dropWhile pySpace).reverse.dropWhile pySpace).reverse

/-- Model of Python str.strip(), exact on ASCII strings. -/
def py_strip (s : String) : String :=
  ⟨stripWs s.data⟩

/-- Tokens on which the string model is exact: ASCII-only strings. -/
def allAscii (s : String) : Bool :=
  s.data.all (fun c => decide (c.toNat ≤ 127))

/-- Model of Python str.lower() (ASCII data, as used by the scripts). -/
def py_lower (s : String) : String :=
  ⟨s.data.map Char.toLower⟩

/-- Model of Python str.upper() (ASCII data, as used by the scripts). -/
def py_upper (s : String) : String :=
  ⟨s.data.map Char.toUpper⟩

/-- Model of Python str.endswith. -/
def str_endswith (s suf : String) : Bool :=
  decide (suf.data <:+ s.data)

/-- Last index of a character in a list (Python str.rfind on one char). -/
def rlastIdx (c : Char) : List Char → Option Nat
  | [] => none
  | a :: rest =>
    match rlastIdx c rest with
    | some i => some (i + 1)
    | none => if a == c then some 0 else none

/-- Model of Python os.path.splitext (posixpath.splitext algorithm): split at
the last dot that lies after the last path separator, provided at least one
non-dot character of the basename precedes it. -/
def splitext (p : String) : String × String :=
  let cs := p.data
  match rlastIdx '.' cs with
  | none => (p, "")
  | some d =>
    let fstart : Nat :=
      match rlastIdx '/' cs with
      | none => 0
      | some si => si + 1
    if fstart ≤ d then
      if ((cs.drop fstart).take (d - fstart)).any (fun ch => ch != '.') then
        (⟨cs.take d⟩, ⟨cs.drop d⟩)
      else (p, "")
    else (p, "")

/-- A run of decimal digits with Python's underscore rule (an underscore
must sit between two digits), accumulating the value and the digit count.
Returns none on a misplaced underscore or a non-digit. -/
def digitsURun : List Char → Nat → Nat → Option (Nat × Nat)
  | [], acc, cnt => some (acc, cnt)
  | '_' :: [], _, _ => none
  | '_' :: c :: rest, acc, cnt =>
    if c.isDigit then digitsURun rest (10 * acc + (c.toNat - 48)) (cnt + 1)
    else none
  | c :: rest, acc, cnt =>
    if c.isDigit then digitsURun rest (10 * acc + (c.toNat - 48)) (cnt + 1)
    else none

/-- A nonempty digit run with Python's underscore rule: its value and digit
count. -/
def digitsU (cs : List Char) : Option (Nat × Nat) :=
  match cs with
  | [] => none
  | c :: rest =>
    if c.isDigit then digitsURun rest (c.toNat - 48) 1 else none

/-- Model of Python int(str), exact on ASCII strings: surrounding ASCII
whitespace, an optional sign, and a digit run with underscores between
digits.  Unicode digit/whitespace forms are outside the model (see
allAscii).  Returns none where Python raises ValueError. -/
def pyInt (s : String) : Option Int :=
  match stripWs s.data with
  | '+' :: cs => (digitsU cs).map (fun p => (p.1 : Int))
  | '-' :: cs => (digitsU cs).map (fun p => -(p.1 : Int))
  | cs => (digitsU cs).map (fun p => (p.1 : Int))

/-- Mantissa of a Python float literal (no sign, no exponent): an integer
part and/or a fractional part around an optional single dot, each a digit
run with underscores between digits; at least one digit overall.  The value
is the exact rational denoted. -/
def pyMantissa (cs : List Char) : Option ℚ :=
  let ip := cs.takeWhile (fun c => c != '.')
  match cs.dropWhile (fun c => c != '.') with
  | [] => (digitsU ip).map (fun p => ((p.1 : ℕ) : ℚ))
  | _ :: fp =>
    if fp.any (fun c => c == '.') then none
    else if ip.isEmpty then
      (digitsU fp).map (fun p => ((p.1 : ℕ) : ℚ) / (10 : ℚ) ^ p.2)
    else
      match digitsU ip with
      | none => none
      | some pi =>
        if fp.isEmpty then some ((pi.1 : ℕ) : ℚ)
        else (digitsU fp).map
          (fun p => ((pi.1 : ℕ) : ℚ) + ((p.1 : ℕ) : ℚ) / (10 : ℚ) ^ p.2)

/-- Signed exponent of a Python float literal (the part after e/E). -/
def pyExp (cs : List Char) : Option Int :=
  match cs with
  | '+' :: rest => (digitsU rest).map (fun p => (p.1 : Int))
  | '-' :: rest => (digitsU rest).map (fun p => -(p.1 : Int))
  | rest => (digitsU rest).map (fun p => (p.1 : Int))

/-- Unsigned finite Python float literal: mantissa with an optional e/E
exponent, as the exact rational denoted. -/
def pyFloatBody (cs : List Char) : Option ℚ :=
  let mant := cs.takeWhile (fun c => c != 'e' && c != 'E')
  match cs.dropWhile (fun c => c != 'e' && c != 'E') with
  | [] => pyMantissa mant
  | _ :: ex =>
    match pyMantissa mant, pyExp ex with
    | some m, some e => some (m * (10 : ℚ) ^ e)
    | _, _ => none

/-- Model of Python float(str) on the finite ASCII forms, as the exact
rational denoted (surrounding ASCII whitespace, optional sign, underscores
between digits, optional e/E exponent).  The special tokens inf, infinity
and nan, which Python also accepts, denote non-rational floats and are
recognized separately by pyFloatSpecial; Unicode digit/whitespace forms are
outside the model (see allAscii).  Returns none where Python raises
ValueError on a finite ASCII form. -/
def pyFloat (s : String) : Option ℚ :=
  match stripWs s.data with
  | '+' :: cs => pyFloatBody cs
  | '-' :: cs => (pyFloatBody cs).map (fun q => -q)
  | cs => pyFloatBody cs

/-- The inf/infinity/nan word, case-insensitively. -/
def pyFloatSpecialBody (cs : List Char) : Bool :=
  let w := cs.map Char.toLower
  w == ['i', 'n', 'f'] || w == ['i', 'n', 'f', 'i', 'n', 'i', 't', 'y']
    || w == ['n', 'a', 'n']

/-- The optionally signed special float tokens inf, infinity and nan
(surrounded by ASCII whitespace), which Python float() accepts as
non-finite values. -/
def pyFloatSpecial (s : String) : Bool :=
  match stripWs s.data with
  | '+' :: cs => pyFloatSpecialBody cs
  | '-' :: cs => pyFloatSpecialBody cs
  | cs => pyFloatSpecialBody cs

/-- Embedding of the scripts' recurring option idiom
`if FLAG in args: idx = args.index(FLAG); if idx + 1 < len(args): use args[idx+1]`:
the token following the first occurrence of the flag, none when the flag is
absent or is the last token. -/
def flagVal (args : List String) (flag : String) : Option String :=
  match args with
  | [] => none
  | a :: rest => if a == flag then rest.head? else flagVal rest flag

namespace Conv

/-- Configuration record accumulated by the module-level argument parsing of
convert-low-poly.py (lines 26-157). -/
structure Config where
  input_path : String
  output_path : String
  proceed_with_glb : Bool
  ratio : ℚ
  texture_size : Int
  normal_map_size : Option Int
  remove_textures : Bool
  fix_origin : Bool
  keep_original_textures : Bool
  texture_format : String
  texture_quality : Int
  use_webp_flag : Bool
  apply_texture_path : Option String
deriving DecidableEq, Repr

/-- Lines 26-47: positional paths, the --glb flag, the conditional rewrite of
the output path to a .glb extension, and the default option values. -/
def initConfig (inp outp : String) (args : List String) : Config :=
  let glb := args.contains "--glb"
  { input_path := inp
    output_path :=
      if glb && ! str_endswith (py_lower outp) ".glb" then
        (splitext outp).1 ++ ".glb"
      else outp
    proceed_with_glb := glb
    ratio := 15 / 100
    texture_size := 512
    normal_map_size := none
    remove_textures := false
    fix_origin := true
    keep_original_textures := false
    texture_format := "PNG"
    texture_quality := 90
    use_webp_flag := false
    apply_texture_path := none }

/-- Lines 49-55: the --webp flag forces JPEG / quality 30 / size 32. -/
def step_webp (args : List String) (c : Config) : Config :=
  if args.contains "--webp" then
    { c with texture_format := "JPEG", texture_quality := 30, texture_size := 32,
             use_webp_flag := true }
  else c

/-- Lines 57-88: the --quality preset table; an unparsable value is reported
and the defaults kept.  The returned list is the error text printed (the
[INFO] progress prints are not part of the model). -/
def step_quality (args : List String) (c : Config) : Config × List String :=
  match flagVal args "--quality" with
  | none => (c, [])
  | some v =>
    match pyInt v with
    | none => (c, ["Invalid quality value: " ++ v ++ ", using defaults"])
    | some q =>
      (if q = 1 then
        { c with ratio := 5 / 100, texture_size := 256,
                 texture_format := "JPEG", texture_quality := 75 }
      else if q = 2 then
        { c with ratio := 10 / 100, texture_size := 512,
                 texture_format := "JPEG", texture_quality := 85 }
      else if q = 3 then
        { c with ratio := 15 / 100, texture_size := 1024, texture_format := "PNG" }
      else if q = 4 then
        { c with ratio := 25 / 100, texture_size := 2048, texture_format := "PNG" }
      else if q = 5 then
        { c with ratio := 40 / 100, texture_size := 4096, texture_format := "PNG",
                 keep_original_textures := true }
      else c, [])

/-- Lines 91-98: --ratio; an unparsable value prints an error and calls
sys.exit(1), modelled by the error case carrying the printed text.  A
special token (inf/nan) is accepted by Python and stored as a non-finite
float; that value lies outside the rational carrier, so the model keeps the
previous ratio as a placeholder — no claim reads the ratio in this case. -/
def step_ratio (args : List String) (c : Config) : Except String Config :=
  match flagVal args "--ratio" with
  | none => Except.ok c
  | some v =>
    match pyFloat v with
    | some r => Except.ok { c with ratio := r }
    | none =>
      if pyFloatSpecial v then Except.ok c
      else Except.error ("Invalid ratio value: " ++ v)

/-- Lines 100-106: --texture-size; an unparsable value is reported and the
previous value kept. -/
def step_texture_size (args : List String) (c : Config) : Config × List String :=
  match flagVal args "--texture-size" with
  | none => (c, [])
  | some v =>
    match pyInt v with
    | some n => ({ c with texture_size := n }, [])
    | none => (c, ["Invalid texture size: " ++ v])

/-- Lines 108-114: --normal-map-size; an unparsable value is reported and the
previous value kept. -/
def step_normal_map_size (args : List String) (c : Config) : Config × List String :=
  match flagVal args "--normal-map-size" with
  | none => (c, [])
  | some v =>
    match pyInt v with
    | some n => ({ c with normal_map_size := some n }, [])
    | none => (c, ["Invalid normal map size: " ++ v])

/-- Lines 116-123: --texture-format, accepted only when the uppercased value
is PNG or JPEG; otherwise reported and the previous value kept. -/
def step_texture_format (args : List String) (c : Config) : Config × List String :=
  match flagVal args "--texture-format" with
  | none => (c, [])
  | some v =>
    let fmt := py_upper v
    if fmt == "PNG" || fmt == "JPEG" then
      ({ c with texture_format := fmt }, [])
    else
      (c, ["Invalid texture format: " ++ v ++ ", using " ++ c.texture_format])

/-- Lines 125-135: --texture-quality with clamping to [0, 100]; an unparsable
value is reported and the previous value kept. -/
def step_texture_quality (args : List String) (c : Config) : Config × List String :=
  match flagVal args "--texture-quality" with
  | none => (c, [])
  | some v =>
    match pyInt v with
    | some n =>
      ({ c with texture_quality := if n < 0 then 0 else if 100 < n then 100 else n }, [])
    | none => (c, ["Invalid texture quality: " ++ v])

/-- Lines 137-145: --remove-textures (which also clears
keep_original_textures), --keep-original-textures, --no-fix-origin. -/
def step_bools (args : List String) (c : Config) : Config :=
  let c1 :=
    if args.contains "--remove-textures" then
      { c with remove_textures := true, keep_original_textures := false }
    else c
  let c2 :=
    if args.contains "--keep-original-textures" then
      { c1 with keep_original_textures := true }
    else c1
  if args.contains "--no-fix-origin" then { c2 with fix_origin := false } else c2

/-- Lines 147-153: --apply-texture records the following token as a path. -/
def step_apply_texture (args : List String) (c : Config) : Config :=
  match flagVal args "--apply-texture" with
  | none => c
  | some v => { c with apply_texture_path := some v }

/-- Lines 155-157: normal_map_size defaults to texture_size when unset. -/
def step_nm_default (c : Config) : Config :=
  match c.normal_map_size with
  | none => { c with normal_map_size := some c.texture_size }
  | some _ => c

/-- Outcome of the module-level argument parsing: crash models an uncaught
IndexError on a missing positional argument (args[0]/args[1], line 27-28),
exited models sys.exit, parsed carries the finished configuration.  The log
collects the parse-error texts printed on the way. -/
inductive POutcome
  | crash
  | exited (code : Nat) (log : List String)
  | parsed (cfg : Config) (log : List String)
deriving DecidableEq, Repr

/-- Configuration and log after the blocks preceding --ratio: defaults and
path handling, then --webp, then the --quality presets (lines 26-88). -/
def afterQuality (inp outp : String) (args : List String) : Config × List String :=
  step_quality args (step_webp args (initConfig inp outp args))

/-- Configuration and log contributed by the blocks following --ratio:
--texture-size, --normal-map-size, --texture-format, --texture-quality, the
boolean flags, --apply-texture and the normal-map-size default
(lines 100-157). -/
def finishParse (args : List String) (c : Config) : Config × List String :=
  let ts := step_texture_size args c
  let nm := step_normal_map_size args ts.1
  let tf := step_texture_format args nm.1
  let tq := step_texture_quality args tf.1
  (step_nm_default (step_apply_texture args (step_bools args tq.1)),
   ts.2 ++ nm.2 ++ tf.2 ++ tq.2)

/-- The whole argument-parsing prologue of convert-low-poly.py (lines 26-157)
applied to the token list following the `--` separator. -/
def parseArgs (args : List String) : POutcome :=
  match args with
  | inp :: outp :: _ =>
    let q := afterQuality inp outp args
    match step_ratio args q.1 with
    | Except.error m => POutcome.exited 1 (q.2 ++ [m])
    | Except.ok c3 =>
      POutcome.parsed (finishParse args c3).1 (q.2 ++ (finishParse args c3).2)
  | _ => POutcome.crash

/-- Configuration delivered by a parse outcome, if any. -/
def POutcome.cfg? : POutcome → Option Config
  | POutcome.parsed c _ => some c
  | _ => none

/-- Log of a parse outcome. -/
def POutcome.logOf : POutcome → List String
  | POutcome.exited _ l => l
  | POutcome.parsed _ l => l
  | POutcome.crash => []

/-- Whether parsing finished and the script continues. -/
def POutcome.isParsed : POutcome → Bool
  | POutcome.parsed _ _ => true
  | _ => false

/-- Exit code of a parse outcome when it exited. -/
def POutcome.exitCode? : POutcome → Option Nat
  | POutcome.exited n _ => some n
  | _ => none

/-- Scene-dependent facts the control-flow model abstracts over: whether
bpy.data.images.load succeeds on the --apply-texture path (line 224). -/
structure BEnv where
  image_load_ok : Bool

/-- Observable outcome of a whole script run: the process exit code and
whether an export call was reached (an output file written). -/
inductive RunOut
  | crash
  | done (code : Nat) (exported : Bool)
deriving DecidableEq, Repr

/-- Control-flow skeleton of convert-low-poly.py after parsing: the
extension-dispatched import (lines 179-186, exit 1 on an unsupported
extension), the --apply-texture image load (lines 223-228, exit 1 on
failure), and the export branches (lines 408-518: GLB export when --glb is
present, otherwise FBX export guarded by output_path.strip().lower()
ending in .fbx, else exit 1).  The decimation/origin passes in between
issue host-API calls only and cannot change the exit code or suppress the
export, so they do not appear. -/
def convertRun (args : List String) (env : BEnv) : RunOut :=
  match parseArgs args with
  | POutcome.crash => RunOut.crash
  | POutcome.exited n _ => RunOut.done n false
  | POutcome.parsed cfg _ =>
    let ext := py_lower (splitext cfg.input_path).2
    if ext == ".fbx" || ext == ".glb" || ext == ".gltf" then
      if cfg.apply_texture_path.isSome && ! env.image_load_ok then
        RunOut.done 1 false
      else if cfg.proceed_with_glb then
        RunOut.done 0 true
      else if str_endswith (py_lower (py_strip cfg.output_path)) ".fbx" then
        RunOut.done 0 true
      else
        RunOut.done 1 false
    else RunOut.done 1 false

/-- Condition of line 484 deciding whether the post-export WebP conversion
subprocess runs. -/
def webpPostRuns (c : Config) : Bool :=
  (py_lower c.texture_format == "webp") || c.use_webp_flag

/-- Quality preset table, ratio column (spec section 8; source lines 63-85),
over the default 0.15. -/
def presetRatio (q : Int) : ℚ :=
  if q = 1 then 5 / 100
  else if q = 2 then 10 / 100
  else if q = 3 then 15 / 100
  else if q = 4 then 25 / 100
  else if q = 5 then 40 / 100
  else 15 / 100

/-- Quality preset table, texture_size column, over the default 512. -/
def presetTextureSize (q : Int) : Int :=
  if q = 1 then 256
  else if q = 2 then 512
  else if q = 3 then 1024
  else if q = 4 then 2048
  else if q = 5 then 4096
  else 512

/-- Quality preset table, texture_format column, over the default PNG. -/
def presetTextureFormat (q : Int) : String :=
  if q = 1 then "JPEG" else if q = 2 then "JPEG" else "PNG"

/-- Quality preset table, texture_quality column: presets 1 and 2 set it,
presets 3-5 leave the default 90. -/
def presetTextureQuality (q : Int) : Int :=
  if q = 1 then 75 else if q = 2 then 85 else 90

/-- An image datablock of bpy.data.images.  Python object identity is
modelled by the iid field; width/height are img.size[0]/img.size[1]. -/
structure BImage where
  iid : Nat
  has_data : Bool
  width : Int
  height : Int
  file_format : String
deriving DecidableEq, Repr

/-- One node output; link_targets lists link.to_node.type for its links. -/
structure NodeOutput where
  link_targets : List String
deriving DecidableEq, Repr

/-- A shader node: its type, the identity of node.image when set, and its
outputs. -/
structure MatNode where
  node_type : String
  image : Option Nat
  outputs : List NodeOutput
deriving DecidableEq, Repr

/-- A material as traversed by the texture pass. -/
structure BMaterial where
  use_nodes : Bool
  nodes : List MatNode
deriving DecidableEq, Repr

/-- Lines 260-266 for one output: the inner link loop appends the node's
image (once, then breaks) iff some link of this output targets a NORMAL_MAP
node. -/
def outputHasNormalLink (o : NodeOutput) : Bool :=
  o.link_targets.contains "NORMAL_MAP"

/-- Number of appends to normal_maps performed for one node: one per output
owning a NORMAL_MAP link (the break in lines 263-266 leaves the outer
output loop running). -/
def nodeNormalCount (n : MatNode) : Nat :=
  (n.outputs.filter outputHasNormalLink).length

/-- Appends to the normal_maps list contributed by one material
(lines 255-266). -/
def matNormalMaps (m : BMaterial) : List Nat :=
  if m.use_nodes then
    m.nodes.flatMap (fun n =>
      if n.node_type == "TEX_IMAGE" then
        match n.image with
        | some i => List.replicate (nodeNormalCount n) i
        | none => []
      else [])
  else []

/-- Appends to the regular_textures list contributed by one material
(lines 267-268: nodes whose is_normal_map flag stayed False). -/
def matRegulars (m : BMaterial) : List Nat :=
  if m.use_nodes then
    m.nodes.flatMap (fun n =>
      if n.node_type == "TEX_IMAGE" then
        match n.image with
        | some i => if nodeNormalCount n = 0 then [i] else []
        | none => []
      else [])
  else []

/-- The normal_maps list over all materials. -/
def normalMapsOf (mats : List BMaterial) : List Nat :=
  mats.flatMap matNormalMaps

/-- The regular_textures list over all materials. -/
def regularsOf (mats : List BMaterial) : List Nat :=
  mats.flatMap matRegulars

/-- Resize guard of lines 272-274 / 283-285 / 293-294: has_data, positive
size, and not already within the target in both dimensions. -/
def imgTooBig (b : BImage) (t : Int) : Bool :=
  b.has_data && (0 < b.width) && (0 < b.height) && ! (b.width ≤ t && b.height ≤ t)

/-- Effect of img.scale(t, t), plus the file_format := PNG assignment the
normal-map loop performs (line 279). -/
def scaleTo (b : BImage) (t : Int) (png : Bool) : BImage :=
  { b with width := t, height := t,
           file_format := if png then "PNG" else b.file_format }

/-- One iteration of a resize loop on the image identified by i. -/
def resizeStep (store : List BImage) (i : Nat) (t : Int) (png : Bool) : List BImage :=
  store.map (fun b => if b.iid = i ∧ imgTooBig b t then scaleTo b t png else b)

/-- A resize loop over a list of image identities (lines 271-279 with
png := true, lines 282-288 with png := false). -/
def resizeList (store : List BImage) (ids : List Nat) (t : Int) (png : Bool) :
    List BImage :=
  ids.foldl (fun s i => resizeStep s i t png) store

/-- Third loop, lines 291-297: every image in neither list is resized to the
regular target under the same guard. -/
def resizeRest (store : List BImage) (nm reg : List Nat) (t : Int) : List BImage :=
  store.map (fun b =>
    if ¬ nm.contains b.iid ∧ ¬ reg.contains b.iid ∧ imgTooBig b t then
      scaleTo b t false
    else b)

/-- The texture classification and resize pass, lines 246-299: classify,
resize normal maps to the normal-map target (forcing PNG), resize regular
textures to the texture target, then sweep the unclassified rest. -/
def texturePass (nm_size tex_size : Int) (mats : List BMaterial)
    (store : List BImage) : List BImage :=
  let nm := normalMapsOf mats
  let reg := regularsOf mats
  resizeRest (resizeList (resizeList store nm nm_size true) reg tex_size false)
    nm reg tex_size

/-- First image in the store with the given identity (bpy.data.images
lookup by object identity). -/
def findImg (store : List BImage) (i : Nat) : Option BImage :=
  match store with
  | [] => none
  | b :: r => if b.iid = i then some b else findImg r i

/-- A material slot assigned to a mesh: either a material imported with the
model or one constructed by the script (name and diffuse RGBA). -/
inductive MatRef
  | imported (mat_name : String)
  | constructed (mat_name : String) (color : ℚ × ℚ × ℚ × ℚ)
deriving DecidableEq, Repr

/-- A mesh object's material slots. -/
structure BMesh where
  materials : List MatRef
deriving DecidableEq, Repr

/-- The scene state the texture-processing section reads and writes. -/
structure BScene where
  images : List BImage
  mats : List BMaterial
  meshes : List BMesh
deriving DecidableEq, Repr

/-- The SimpleMaterial of lines 304-319: flat light-gray diffuse
(0.8, 0.8, 0.8, 1.0). -/
def simple_material : MatRef :=
  MatRef.constructed "SimpleMaterial" (8 / 10, 8 / 10, 8 / 10, 1)

/-- Lines 302-330, the --remove-textures branch: every image datablock is
removed and every mesh's material slots are cleared and replaced by the
single SimpleMaterial. -/
def removeTexturesBranch (s : BScene) : BScene :=
  { s with images := [],
           meshes := s.meshes.map (fun m => { m with materials := [simple_material] }) }

/-- The texture-processing section, lines 246-330 (executed on the else side
of the --apply-texture branch, i.e. when apply_texture_path is None): keep
originals untouched, run the classify/resize pass, or remove all textures,
according to the configuration. -/
def textureSection (c : Config) (s : BScene) : BScene :=
  if ¬ c.remove_textures then
    if ¬ c.keep_original_textures then
      { s with images := (texturePass (c.normal_map_size.getD c.texture_size)
          c.texture_size s.mats s.images) }
    else s
  else removeTexturesBranch s

end Conv

namespace Shade

/-- Control-flow skeleton of apply-shaded-texture.py: positional paths
(lines 13-15, an IndexError on fewer than two tokens is crash), the
extension-dispatched import (lines 44-51, exit 1 on an unsupported
extension), the --image load (lines 72-77, exit 1 on failure), and the
export dispatch on the output suffix (lines 112-120, exit 1 when it is none
of .fbx/.glb/.gltf).  The --color parsing (lines 20-25) catches every
exception and can only print a warning, so it cannot affect this outcome. -/
def applyShadedRun (args : List String) (env : Conv.BEnv) : Conv.RunOut :=
  match args with
  | inp :: outp :: _ =>
    let ext := py_lower (splitext inp).2
    if ext == ".fbx" || ext == ".glb" || ext == ".gltf" then
      if (flagVal args "--image").isSome && ! env.image_load_ok then
        Conv.RunOut.done 1 false
      else
        let lo := py_lower outp
        if str_endswith lo ".fbx" then Conv.RunOut.done 0 true
        else if str_endswith lo ".glb" || str_endswith lo ".gltf" then
          Conv.RunOut.done 0 true
        else Conv.RunOut.done 1 false
    else Conv.RunOut.done 1 false
  | _ => Conv.RunOut.crash

end Shade

namespace Lod

/-- JSON values, the image of the Python dict/list/str/number/None data the
fixture generator builds; json.dump of any such value is a valid JSON
document.  Numbers are exact rationals (all the generator's float
arithmetic is dyadic-exact). -/
inductive JVal
  | jnull
  | jstr (s : String)
  | jnum (q : ℚ)
  | jarr (xs : List JVal)
  | jobj (fields : List (String × JVal))
deriving Repr

/-- Key list of a JSON object, empty for other values. -/
def jkeys : JVal → List String
  | JVal.jobj fs => fs.map Prod.fst
  | _ => []

/-- First value bound to a key in a field list (Python dict lookup; the
generator never duplicates keys). -/
def jlookup (k : String) : List (String × JVal) → Option JVal
  | [] => none
  | (k', v) :: r => if k' == k then some v else jlookup k r

/-- Lines 43: grid_size = int(math.sqrt(1000)) + 1; the float sqrt truncates
to 31, modelled by the integer square root (exact here). -/
def grid_size : Nat := Nat.sqrt 1000 + 1

/-- Lines 27-39: the camera entity. -/
def cameraEntity : JVal :=
  JVal.jobj
    [("id", JVal.jnum 0),
     ("name", JVal.jstr "camera"),
     ("components", JVal.jobj
       [("Camera", JVal.jobj
         [("position", JVal.jarr [JVal.jnum 0, JVal.jnum 5, JVal.jnum 30]),
          ("rotation", JVal.jarr
            [JVal.jnum 0, JVal.jnum 0, JVal.jnum 0, JVal.jnum 1]),
          ("fov", JVal.jnum 60),
          ("near", JVal.jnum (1 / 10)),
          ("far", JVal.jnum 1000)])])]

/-- Lines 50-77: one grid entity built from the running entity_id and the
grid coordinates x, z.  All float arithmetic ((x - grid_size/2)*2.0 +
(x % 3)*0.5 and friends) is dyadic-exact, so the rational model is exact. -/
def mkEntity (eid x z : Nat) : JVal :=
  let pos_x : ℚ := ((x : ℚ) - (grid_size : ℚ) / 2) * 2 + ((x % 3 : Nat) : ℚ) * (5 / 10)
  let pos_z : ℚ := ((z : ℚ) - (grid_size : ℚ) / 2) * 2 + ((z % 3 : Nat) : ℚ) * (5 / 10)
  let pos_y : ℚ := (((x + z) % 3 : Nat) : ℚ) * (5 / 10)
  JVal.jobj
    [("id", JVal.jnum (eid : ℚ)),
     ("name", JVal.jstr ("lod_entity_" ++ toString eid)),
     ("components", JVal.jobj
       [("Transform", JVal.jobj
         [("position", JVal.jarr [JVal.jnum pos_x, JVal.jnum pos_y, JVal.jnum pos_z]),
          ("rotation", JVal.jarr
            [JVal.jnum 0, JVal.jnum 0, JVal.jnum 0, JVal.jnum 1]),
          ("scale", JVal.jarr [JVal.jnum 1, JVal.jnum 1, JVal.jnum 1])]),
        ("MeshRenderer", JVal.jobj
         [("mesh_path", JVal.jstr
            ("models/performance_obj_" ++ toString (eid % 10) ++ ".glb")),
          ("material_path", JVal.jstr "materials/default.json")]),
        ("LODComponent", JVal.jobj
         [("path", JVal.jstr
            ("models/performance_obj_" ++ toString (eid % 10) ++ ".glb")),
          ("high_quality_path", JVal.jstr
            ("models/lod/performance_obj_" ++ toString (eid % 10) ++ "_high.glb")),
          ("low_quality_path", JVal.jstr
            ("models/lod/performance_obj_" ++ toString (eid % 10) ++ "_low.glb")),
          ("distance_thresholds", JVal.jarr
            [JVal.jnum ((5 + eid % 5 : Nat) : ℚ), JVal.jnum ((15 + eid % 10 : Nat) : ℚ)]),
          ("quality_override", JVal.jnull),
          ("current_quality", JVal.jstr "Original")])])]

/-- Inner loop over z (lines 46-80): before each body the guard
entity_id > 1000 breaks; otherwise the entity is appended and the counter
incremented.  Returns the appended entities and the final counter. -/
def innerLoop (x : Nat) : List Nat → Nat → List JVal × Nat
  | [], eid => ([], eid)
  | z :: zs, eid =>
    if eid > 1000 then ([], eid)
    else
      let r := innerLoop x zs (eid + 1)
      (mkEntity eid x z :: r.1, r.2)

/-- Outer loop over x (lines 45-83): run the inner loop over the z range,
then break when the counter exceeds 1000.  The z range (range(grid_size) in
the source) is the zs parameter, supplied at the call site. -/
def outerLoop (zs : List Nat) : List Nat → Nat → List JVal
  | [], _ => []
  | x :: xs, eid =>
    let r := innerLoop x zs eid
    if r.2 > 1000 then r.1 else r.1 ++ outerLoop zs xs r.2

/-- The grid entities appended by the nested loops over
range(grid_size) × range(grid_size), starting at entity_id = 1. -/
def gridEntities : List JVal :=
  outerLoop (List.range grid_size) (List.range grid_size) 1

/-- Lines 10-24: the metadata object of the scene document. -/
def sceneMetadata : JVal :=
  JVal.jobj
    [("description", JVal.jstr "LOD performance test scene with 1000+ entities"),
     ("test_cases", JVal.jarr
       [JVal.jstr "LOD calculation performance with many entities",
        JVal.jstr "Memory usage patterns",
        JVal.jstr "Batch processing efficiency",
        JVal.jstr "Thread safety under load"]),
     ("entity_count", JVal.jnum 1000)]

/-- generate_performance_scene() (lines 9-85): the full scene document with
the camera entity followed by the grid entities. -/
def generate_performance_scene : JVal :=
  JVal.jobj
    [("name", JVal.jstr "testlod-performance"),
     ("version", JVal.jstr "1.0"),
     ("entities", JVal.jarr (cameraEntity :: gridEntities)),
     ("metadata", sceneMetadata)]

/-- The entities list of a scene document. -/
def entitiesOf : JVal → List JVal
  | JVal.jobj fs =>
    match jlookup "entities" fs with
    | some (JVal.jarr xs) => xs
    | _ => []
  | _ => []

/-- The id field of an entity, when it is a number. -/
def entityIdOf : JVal → Option ℚ
  | JVal.jobj fs =>
    match jlookup "id" fs with
    | some (JVal.jnum q) => some q
    | _ => none
  | _ => none

/-- The ids of the grid entities, in generation order. -/
def gridIds : List ℚ :=
  gridEntities.filterMap entityIdOf

end Lod

/-!
Theorems.  Each claim of the specification gets one theorem below (with a
witness instance where the theorem has hypotheses); shared lemmas about the
embedded definitions come first.
-/

namespace Conv

/-!
Preservation lemmas: each parsing step leaves every configuration field it
does not assign unchanged.
-/

theorem w_keeps_input_path (args : List String) (c : Config) :
    (step_webp args c).input_path = c.input_path := by
  unfold step_webp
  repeat' split
  all_goals rfl

theorem w_keeps_ratio (args : List String) (c : Config) :
    (step_webp args c).ratio = c.ratio := by
  unfold step_webp
  repeat' split
  all_goals rfl

theorem w_keeps_normal_map_size (args : List String) (c : Config) :
    (step_webp args c).normal_map_size = c.normal_map_size := by
  unfold step_webp
  repeat' split
  all_goals rfl

theorem w_keeps_remove_textures (args : List String) (c : Config) :
    (step_webp args c).remove_textures = c.remove_textures := by
  unfold step_webp
  repeat' split
  all_goals rfl

theorem w_keeps_fix_origin (args : List String) (c : Config) :
    (step_webp args c).fix_origin = c.fix_origin := by
  unfold step_webp
  repeat' split
  all_goals rfl

theorem w_keeps_keep_original_textures (args : List String) (c : Config) :
    (step_webp args c).keep_original_textures = c.keep_original_textures := by
  unfold step_webp
  repeat' split
  all_goals rfl

theorem w_keeps_apply_texture_path (args : List String) (c : Config) :
    (step_webp args c).apply_texture_path = c.apply_texture_path := by
  unfold step_webp
  repeat' split
  all_goals rfl

theorem q_keeps_input_path (args : List String) (c : Config) :
    ((step_quality args c).1).input_path = c.input_path := by
  unfold step_quality
  repeat' split
  all_goals rfl

theorem q_keeps_normal_map_size (args : List String) (c : Config) :
    ((step_quality args c).1).normal_map_size = c.normal_map_size := by
  unfold step_quality
  repeat' split
  all_goals rfl

theorem q_keeps_remove_textures (args : List String) (c : Config) :
    ((step_quality args c).1).remove_textures = c.remove_textures := by
  unfold step_quality
  repeat' split
  all_goals rfl

theorem q_keeps_fix_origin (args : List String) (c : Config) :
    ((step_quality args c).1).fix_origin = c.fix_origin := by
  unfold step_quality
  repeat' split
  all_goals rfl

theorem q_keeps_use_webp_flag (args : List String) (c : Config) :
    ((step_quality args c).1).use_webp_flag = c.use_webp_flag := by
  unfold step_quality
  repeat' split
  all_goals rfl

theorem q_keeps_apply_texture_path (args : List String) (c : Config) :
    ((step_quality args c).1).apply_texture_path = c.apply_texture_path := by
  unfold step_quality
  repeat' split
  all_goals rfl

theorem ts_keeps_input_path (args : List String) (c : Config) :
    ((step_texture_size args c).1).input_path = c.input_path := by
  unfold step_texture_size
  repeat' split
  all_goals rfl

theorem ts_keeps_ratio (args : List String) (c : Config) :
    ((step_texture_size args c).1).ratio = c.ratio := by
  unfold step_texture_size
  repeat' split
  all_goals rfl

theorem ts_keeps_normal_map_size (args : List String) (c : Config) :
    ((step_texture_size args c).1).normal_map_size = c.normal_map_size := by
  unfold step_texture_size
  repeat' split
  all_goals rfl

theorem ts_keeps_remove_textures (args : List String) (c : Config) :
    ((step_texture_size args c).1).remove_textures = c.remove_textures := by
  unfold step_texture_size
  repeat' split
  all_goals rfl

theorem ts_keeps_fix_origin (args : List String) (c : Config) :
    ((step_texture_size args c).1).fix_origin = c.fix_origin := by
  unfold step_texture_size
  repeat' split
  all_goals rfl

theorem ts_keeps_keep_original_textures (args : List String) (c : Config) :
    ((step_texture_size args c).1).keep_original_textures = c.keep_original_textures := by
  unfold step_texture_size
  repeat' split
  all_goals rfl

theorem ts_keeps_texture_format (args : List String) (c : Config) :
    ((step_texture_size args c).1).texture_format = c.texture_format := by
  unfold step_texture_size
  repeat' split
  all_goals rfl

theorem ts_keeps_texture_quality (args : List String) (c : Config) :
    ((step_texture_size args c).1).texture_quality = c.texture_quality := by
  unfold step_texture_size
  repeat' split
  all_goals rfl

theorem ts_keeps_use_webp_flag (args : List String) (c : Config) :
    ((step_texture_size args c).1).use_webp_flag = c.use_webp_flag := by
  unfold step_texture_size
  repeat' split
  all_goals rfl

theorem ts_keeps_apply_texture_path (args : List String) (c : Config) :
    ((step_texture_size args c).1).apply_texture_path = c.apply_texture_path := by
  unfold step_texture_size
  repeat' split
  all_goals rfl

theorem nm_keeps_input_path (args : List String) (c : Config) :
    ((step_normal_map_size args c).1).input_path = c.input_path := by
  unfold step_normal_map_size
  repeat' split
  all_goals rfl

theorem nm_keeps_ratio (args : List String) (c : Config) :
    ((step_normal_map_size args c).1).ratio = c.ratio := by
  unfold step_normal_map_size
  repeat' split
  all_goals rfl

theorem nm_keeps_texture_size (args : List String) (c : Config) :
    ((step_normal_map_size args c).1).texture_size = c.texture_size := by
  unfold step_normal_map_size
  repeat' split
  all_goals rfl

theorem nm_keeps_remove_textures (args : List String) (c : Config) :
    ((step_normal_map_size args c).1).remove_textures = c.remove_textures := by
  unfold step_normal_map_size
  repeat' split
  all_goals rfl

theorem nm_keeps_fix_origin (args : List String) (c : Config) :
    ((step_normal_map_size args c).1).fix_origin = c.fix_origin := by
  unfold step_normal_map_size
  repeat' split
  all_goals rfl

theorem nm_keeps_keep_original_textures (args : List String) (c : Config) :
    ((step_normal_map_size args c).1).keep_original_textures = c.keep_original_textures := by
  unfold step_normal_map_size
  repeat' split
  all_goals rfl

theorem nm_keeps_texture_format (args : List String) (c : Config) :
    ((step_normal_map_size args c).1).texture_format = c.texture_format := by
  unfold step_normal_map_size
  repeat' split
  all_goals rfl

theorem nm_keeps_texture_quality (args : List String) (c : Config) :
    ((step_normal_map_size args c).1).texture_quality = c.texture_quality := by
  unfold step_normal_map_size
  repeat' split
  all_goals rfl

theorem nm_keeps_use_webp_flag (args : List String) (c : Config) :
    ((step_normal_map_size args c).1).use_webp_flag = c.use_webp_flag := by
  unfold step_normal_map_size
  repeat' split
  all_goals rfl

theorem nm_keeps_apply_texture_path (args : List String) (c : Config) :
    ((step_normal_map_size args c).1).apply_texture_path = c.apply_texture_path := by
  unfold step_normal_map_size
  repeat' split
  all_goals rfl

theorem tf_keeps_input_path (args : List String) (c : Config) :
    ((step_texture_format args c).1).input_path = c.input_path := by
  unfold step_texture_format
  dsimp only
  repeat' split
  all_goals rfl

theorem tf_keeps_ratio (args : List String) (c : Config) :
    ((step_texture_format args c).1).ratio = c.ratio := by
  unfold step_texture_format
  dsimp only
  repeat' split
  all_goals rfl

theorem tf_keeps_texture_size (args : List String) (c : Config) :
    ((step_texture_format args c).1).texture_size = c.texture_size := by
  unfold step_texture_format
  dsimp only
  repeat' split
  all_goals rfl

theorem tf_keeps_normal_map_size (args : List String) (c : Config) :
    ((step_texture_format args c).1).normal_map_size = c.normal_map_size := by
  unfold step_texture_format
  dsimp only
  repeat' split
  all_goals rfl

theorem tf_keeps_remove_textures (args : List String) (c : Config) :
    ((step_texture_format args c).1).remove_textures = c.remove_textures := by
  unfold step_texture_format
  dsimp only
  repeat' split
  all_goals rfl

theorem tf_keeps_fix_origin (args : List String) (c : Config) :
    ((step_texture_format args c).1).fix_origin = c.fix_origin := by
  unfold step_texture_format
  dsimp only
  repeat' split
  all_goals rfl

theorem tf_keeps_keep_original_textures (args : List String) (c : Config) :
    ((step_texture_format args c).1).keep_original_textures = c.keep_original_textures := by
  unfold step_texture_format
  dsimp only
  repeat' split
  all_goals rfl

theorem tf_keeps_texture_quality (args : List String) (c : Config) :
    ((step_texture_format args c).1).texture_quality = c.texture_quality := by
  unfold step_texture_format
  dsimp only
  repeat' split
  all_goals rfl

theorem tf_keeps_use_webp_flag (args : List String) (c : Config) :
    ((step_texture_format args c).1).use_webp_flag = c.use_webp_flag := by
  unfold step_texture_format
  dsimp only
  repeat' split
  all_goals rfl

theorem tf_keeps_apply_texture_path (args : List String) (c : Config) :
    ((step_texture_format args c).1).apply_texture_path = c.apply_texture_path := by
  unfold step_texture_format
  dsimp only
  repeat' split
  all_goals rfl

theorem tq_keeps_input_path (args : List String) (c : Config) :
    ((step_texture_quality args c).1).input_path = c.input_path := by
  unfold step_texture_quality
  repeat' split
  all_goals rfl

theorem tq_keeps_ratio (args : List String) (c : Config) :
    ((step_texture_quality args c).1).ratio = c.ratio := by
  unfold step_texture_quality
  repeat' split
  all_goals rfl

theorem tq_keeps_texture_size (args : List String) (c : Config) :
    ((step_texture_quality args c).1).texture_size = c.texture_size := by
  unfold step_texture_quality
  repeat' split
  all_goals rfl

theorem tq_keeps_normal_map_size (args : List String) (c : Config) :
    ((step_texture_quality args c).1).normal_map_size = c.normal_map_size := by
  unfold step_texture_quality
  repeat' split
  all_goals rfl

theorem tq_keeps_remove_textures (args : List String) (c : Config) :
    ((step_texture_quality args c).1).remove_textures = c.remove_textures := by
  unfold step_texture_quality
  repeat' split
  all_goals rfl

theorem tq_keeps_fix_origin (args : List String) (c : Config) :
    ((step_texture_quality args c).1).fix_origin = c.fix_origin := by
  unfold step_texture_quality
  repeat' split
  all_goals rfl

theorem tq_keeps_keep_original_textures (args : List String) (c : Config) :
    ((step_texture_quality args c).1).keep_original_textures = c.keep_original_textures := by
  unfold step_texture_quality
  repeat' split
  all_goals rfl

theorem tq_keeps_texture_format (args : List String) (c : Config) :
    ((step_texture_quality args c).1).texture_format = c.texture_format := by
  unfold step_texture_quality
  repeat' split
  all_goals rfl

theorem tq_keeps_use_webp_flag (args : List String) (c : Config) :
    ((step_texture_quality args c).1).use_webp_flag = c.use_webp_flag := by
  unfold step_texture_quality
  repeat' split
  all_goals rfl

theorem tq_keeps_apply_texture_path (args : List String) (c : Config) :
    ((step_texture_quality args c).1).apply_texture_path = c.apply_texture_path := by
  unfold step_texture_quality
  repeat' split
  all_goals rfl

theorem b_keeps_input_path (args : List String) (c : Config) :
    (step_bools args c).input_path = c.input_path := by
  unfold step_bools
  dsimp only
  split_ifs <;> rfl

theorem b_keeps_ratio (args : List String) (c : Config) :
    (step_bools args c).ratio = c.ratio := by
  unfold step_bools
  dsimp only
  split_ifs <;> rfl

theorem b_keeps_texture_size (args : List String) (c : Config) :
    (step_bools args c).texture_size = c.texture_size := by
  unfold step_bools
  dsimp only
  split_ifs <;> rfl

theorem b_keeps_normal_map_size (args : List String) (c : Config) :
    (step_bools args c).normal_map_size = c.normal_map_size := by
  unfold step_bools
  dsimp only
  split_ifs <;> rfl

theorem b_keeps_texture_format (args : List String) (c : Config) :
    (step_bools args c).texture_format = c.texture_format := by
  unfold step_bools
  dsimp only
  split_ifs <;> rfl

theorem b_keeps_texture_quality (args : List String) (c : Config) :
    (step_bools args c).texture_quality = c.texture_quality := by
  unfold step_bools
  dsimp only
  split_ifs <;> rfl

theorem b_keeps_use_webp_flag (args : List String) (c : Config) :
    (step_bools args c).use_webp_flag = c.use_webp_flag := by
  unfold step_bools
  dsimp only
  split_ifs <;> rfl

theorem b_keeps_apply_texture_path (args : List String) (c : Config) :
    (step_bools args c).apply_texture_path = c.apply_texture_path := by
  unfold step_bools
  dsimp only
  split_ifs <;> rfl

theorem a_keeps_input_path (args : List String) (c : Config) :
    (step_apply_texture args c).input_path = c.input_path := by
  unfold step_apply_texture
  repeat' split
  all_goals rfl

theorem a_keeps_ratio (args : List String) (c : Config) :
    (step_apply_texture args c).ratio = c.ratio := by
  unfold step_apply_texture
  repeat' split
  all_goals rfl

theorem a_keeps_texture_size (args : List String) (c : Config) :
    (step_apply_texture args c).texture_size = c.texture_size := by
  unfold step_apply_texture
  repeat' split
  all_goals rfl

theorem a_keeps_normal_map_size (args : List String) (c : Config) :
    (step_apply_texture args c).normal_map_size = c.normal_map_size := by
  unfold step_apply_texture
  repeat' split
  all_goals rfl

theorem a_keeps_remove_textures (args : List String) (c : Config) :
    (step_apply_texture args c).remove_textures = c.remove_textures := by
  unfold step_apply_texture
  repeat' split
  all_goals rfl

theorem a_keeps_fix_origin (args : List String) (c : Config) :
    (step_apply_texture args c).fix_origin = c.fix_origin := by
  unfold step_apply_texture
  repeat' split
  all_goals rfl

theorem a_keeps_keep_original_textures (args : List String) (c : Config) :
    (step_apply_texture args c).keep_original_textures = c.keep_original_textures := by
  unfold step_apply_texture
  repeat' split
  all_goals rfl

theorem a_keeps_texture_format (args : List String) (c : Config) :
    (step_apply_texture args c).texture_format = c.texture_format := by
  unfold step_apply_texture
  repeat' split
  all_goals rfl

theorem a_keeps_texture_quality (args : List String) (c : Config) :
    (step_apply_texture args c).texture_quality = c.texture_quality := by
  unfold step_apply_texture
  repeat' split
  all_goals rfl

theorem a_keeps_use_webp_flag (args : List String) (c : Config) :
    (step_apply_texture args c).use_webp_flag = c.use_webp_flag := by
  unfold step_apply_texture
  repeat' split
  all_goals rfl

theorem d_keeps_input_path (c : Config) :
    (step_nm_default c).input_path = c.input_path := by
  unfold step_nm_default
  repeat' split
  all_goals rfl

theorem d_keeps_ratio (c : Config) :
    (step_nm_default c).ratio = c.ratio := by
  unfold step_nm_default
  repeat' split
  all_goals rfl

theorem d_keeps_texture_size (c : Config) :
    (step_nm_default c).texture_size = c.texture_size := by
  unfold step_nm_default
  repeat' split
  all_goals rfl

theorem d_keeps_remove_textures (c : Config) :
    (step_nm_default c).remove_textures = c.remove_textures := by
  unfold step_nm_default
  repeat' split
  all_goals rfl

theorem d_keeps_fix_origin (c : Config) :
    (step_nm_default c).fix_origin = c.fix_origin := by
  unfold step_nm_default
  repeat' split
  all_goals rfl

theorem d_keeps_keep_original_textures (c : Config) :
    (step_nm_default c).keep_original_textures = c.keep_original_textures := by
  unfold step_nm_default
  repeat' split
  all_goals rfl

theorem d_keeps_texture_format (c : Config) :
    (step_nm_default c).texture_format = c.texture_format := by
  unfold step_nm_default
  repeat' split
  all_goals rfl

theorem d_keeps_texture_quality (c : Config) :
    (step_nm_default c).texture_quality = c.texture_quality := by
  unfold step_nm_default
  repeat' split
  all_goals rfl

theorem d_keeps_use_webp_flag (c : Config) :
    (step_nm_default c).use_webp_flag = c.use_webp_flag := by
  unfold step_nm_default
  repeat' split
  all_goals rfl

theorem d_keeps_apply_texture_path (c : Config) :
    (step_nm_default c).apply_texture_path = c.apply_texture_path := by
  unfold step_nm_default
  repeat' split
  all_goals rfl

/-- step_ratio, on success, changes at most the ratio field. -/
theorem step_ratio_ok_proj {args : List String} {c c' : Config}
    (h : step_ratio args c = Except.ok c') :
    c'.input_path = c.input_path ∧ c'.output_path = c.output_path
      ∧ c'.proceed_with_glb = c.proceed_with_glb
      ∧ c'.texture_size = c.texture_size
      ∧ c'.normal_map_size = c.normal_map_size
      ∧ c'.remove_textures = c.remove_textures
      ∧ c'.fix_origin = c.fix_origin
      ∧ c'.keep_original_textures = c.keep_original_textures
      ∧ c'.texture_format = c.texture_format
      ∧ c'.texture_quality = c.texture_quality
      ∧ c'.use_webp_flag = c.use_webp_flag
      ∧ c'.apply_texture_path = c.apply_texture_path := by
  unfold step_ratio at h
  rcases hf : flagVal args "--ratio" with _ | v
  · simp only [hf] at h
    injection h with h
    subst h
    exact ⟨rfl, rfl, rfl, rfl, rfl, rfl, rfl, rfl, rfl, rfl, rfl, rfl⟩
  · simp only [hf] at h
    rcases hp : pyFloat v with _ | r
    · simp only [hp] at h
      by_cases hsp : pyFloatSpecial v = true
      · rw [if_pos hsp] at h
        injection h with h
        subst h
        exact ⟨rfl, rfl, rfl, rfl, rfl, rfl, rfl, rfl, rfl, rfl, rfl, rfl⟩
      · rw [if_neg hsp] at h
        simp at h
    · simp only [hp] at h
      injection h with h
      subst h
      exact ⟨rfl, rfl, rfl, rfl, rfl, rfl, rfl, rfl, rfl, rfl, rfl, rfl⟩

/-- Inversion of a finished parse: the ratio block succeeded and the
configuration and log are the assembled ones. -/
theorem parseArgs_parsed_inv {inp outp : String} {rest : List String}
    {cfg : Config} {log : List String}
    (h : parseArgs (inp :: outp :: rest) = POutcome.parsed cfg log) :
    ∃ c3, step_ratio (inp :: outp :: rest)
        (afterQuality inp outp (inp :: outp :: rest)).1 = Except.ok c3
      ∧ cfg = (finishParse (inp :: outp :: rest) c3).1
      ∧ log = (afterQuality inp outp (inp :: outp :: rest)).2
          ++ (finishParse (inp :: outp :: rest) c3).2 := by
  simp only [parseArgs] at h
  rcases hr : step_ratio (inp :: outp :: rest)
      (afterQuality inp outp (inp :: outp :: rest)).1 with m | c3 <;> rw [hr] at h
  · simp at h
  · simp only [POutcome.parsed.injEq] at h
    exact ⟨c3, rfl, h.1.symm, h.2.symm⟩

/-- Inversion of a parse that exited: the exit code is 1 and it came from
the --ratio block, whose error text closes the log. -/
theorem parseArgs_exited_inv {inp outp : String} {rest : List String}
    {n : Nat} {log : List String}
    (h : parseArgs (inp :: outp :: rest) = POutcome.exited n log) :
    n = 1 ∧ ∃ m, step_ratio (inp :: outp :: rest)
        (afterQuality inp outp (inp :: outp :: rest)).1 = Except.error m
      ∧ log = (afterQuality inp outp (inp :: outp :: rest)).2 ++ [m] := by
  simp only [parseArgs] at h
  rcases hr : step_ratio (inp :: outp :: rest)
      (afterQuality inp outp (inp :: outp :: rest)).1 with m | c3 <;> rw [hr] at h
  · simp only [POutcome.exited.injEq] at h
    exact ⟨h.1.symm, m, rfl, h.2.symm⟩
  · simp at h

/-- The blocks after the ratio one never touch the ratio field. -/
theorem finishParse_ratio (args : List String) (c : Config) :
    ((finishParse args c).1).ratio = c.ratio := by
  unfold finishParse
  dsimp only
  rw [d_keeps_ratio, a_keeps_ratio, b_keeps_ratio, tq_keeps_ratio, tf_keeps_ratio,
    nm_keeps_ratio, ts_keeps_ratio]

/-- The blocks after the ratio one never touch the input path. -/
theorem finishParse_input_path (args : List String) (c : Config) :
    ((finishParse args c).1).input_path = c.input_path := by
  unfold finishParse
  dsimp only
  rw [d_keeps_input_path, a_keeps_input_path, b_keeps_input_path,
    tq_keeps_input_path, tf_keeps_input_path, nm_keeps_input_path,
    ts_keeps_input_path]

/-- The blocks after the ratio one never touch the webp flag. -/
theorem finishParse_use_webp_flag (args : List String) (c : Config) :
    ((finishParse args c).1).use_webp_flag = c.use_webp_flag := by
  unfold finishParse
  dsimp only
  rw [d_keeps_use_webp_flag, a_keeps_use_webp_flag, b_keeps_use_webp_flag,
    tq_keeps_use_webp_flag, tf_keeps_use_webp_flag, nm_keeps_use_webp_flag,
    ts_keeps_use_webp_flag]

/-- Final texture_size: the --texture-size block overrides when its value
parses, otherwise the incoming value is kept. -/
theorem finishParse_texture_size (args : List String) (c : Config) :
    ((finishParse args c).1).texture_size
      = match flagVal args "--texture-size" with
        | some v => (match pyInt v with | some n => n | none => c.texture_size)
        | none => c.texture_size := by
  unfold finishParse
  dsimp only
  rw [d_keeps_texture_size, a_keeps_texture_size, b_keeps_texture_size,
    tq_keeps_texture_size, tf_keeps_texture_size, nm_keeps_texture_size]
  rcases hf : flagVal args "--texture-size" with _ | v
  · simp [step_texture_size, hf]
  · rcases hn : pyInt v with _ | n <;> simp [step_texture_size, hf, hn]

/-- Final texture_quality: the --texture-quality block overrides with the
clamped parsed value, otherwise the incoming value is kept. -/
theorem finishParse_texture_quality (args : List String) (c : Config) :
    ((finishParse args c).1).texture_quality
      = match flagVal args "--texture-quality" with
        | some v => (match pyInt v with
          | some n => if n < 0 then 0 else if 100 < n then 100 else n
          | none => c.texture_quality)
        | none => c.texture_quality := by
  unfold finishParse
  dsimp only
  rw [d_keeps_texture_quality, a_keeps_texture_quality, b_keeps_texture_quality]
  rcases hf : flagVal args "--texture-quality" with _ | v
  · simp [step_texture_quality, hf, tf_keeps_texture_quality,
      nm_keeps_texture_quality, ts_keeps_texture_quality]
  · rcases hn : pyInt v with _ | n <;>
      simp [step_texture_quality, hf, hn, tf_keeps_texture_quality,
        nm_keeps_texture_quality, ts_keeps_texture_quality]

/-- Final texture_format: the --texture-format block overrides with the
uppercased value when it is PNG or JPEG, otherwise the incoming value is
kept. -/
theorem finishParse_texture_format (args : List String) (c : Config) :
    ((finishParse args c).1).texture_format
      = match flagVal args "--texture-format" with
        | some v =>
          if py_upper v == "PNG" || py_upper v == "JPEG" then py_upper v
          else c.texture_format
        | none => c.texture_format := by
  unfold finishParse
  dsimp only
  rw [d_keeps_texture_format, a_keeps_texture_format, b_keeps_texture_format,
    tq_keeps_texture_format]
  rcases hf : flagVal args "--texture-format" with _ | v
  · simp [step_texture_format, hf, nm_keeps_texture_format, ts_keeps_texture_format]
  · simp only [step_texture_format, hf]
    split <;>
      simp_all [nm_keeps_texture_format, ts_keeps_texture_format]

/-- Final apply_texture_path: set by the --apply-texture block when present
with a following token. -/
theorem finishParse_apply_texture_path (args : List String) (c : Config) :
    ((finishParse args c).1).apply_texture_path
      = match flagVal args "--apply-texture" with
        | some v => some v
        | none => c.apply_texture_path := by
  unfold finishParse
  dsimp only
  rw [d_keeps_apply_texture_path]
  rcases hf : flagVal args "--apply-texture" with _ | v <;>
    simp [step_apply_texture, hf, b_keeps_apply_texture_path,
      tq_keeps_apply_texture_path, tf_keeps_apply_texture_path,
      nm_keeps_apply_texture_path, ts_keeps_apply_texture_path]

/-- step_bools sets remove_textures exactly when the flag is present. -/
theorem b_sets_remove_textures (args : List String) (c : Config) :
    (step_bools args c).remove_textures
      = if args.contains "--remove-textures" then true else c.remove_textures := by
  unfold step_bools
  dsimp only
  split_ifs <;> rfl

/-- Final remove_textures: set exactly when the flag is present. -/
theorem finishParse_remove_textures (args : List String) (c : Config) :
    ((finishParse args c).1).remove_textures
      = if args.contains "--remove-textures" then true else c.remove_textures := by
  unfold finishParse
  dsimp only
  rw [d_keeps_remove_textures, a_keeps_remove_textures, b_sets_remove_textures,
    tq_keeps_remove_textures, tf_keeps_remove_textures, nm_keeps_remove_textures,
    ts_keeps_remove_textures]

/-- The configuration entering the ratio block records the input path. -/
theorem afterQuality_input_path (inp outp : String) (args : List String) :
    ((afterQuality inp outp args).1).input_path = inp := by
  unfold afterQuality
  rw [q_keeps_input_path, w_keeps_input_path]
  simp [initConfig]

/-- step_webp turns the webp flag on exactly when --webp is present. -/
theorem w_sets_use_webp_flag (args : List String) (c : Config) :
    (step_webp args c).use_webp_flag
      = (args.contains "--webp" || c.use_webp_flag) := by
  unfold step_webp
  cases hc : args.contains "--webp" <;> simp [hc]

/-- The configuration entering the ratio block records the --webp flag. -/
theorem afterQuality_use_webp_flag (inp outp : String) (args : List String) :
    ((afterQuality inp outp args).1).use_webp_flag
      = args.contains "--webp" := by
  unfold afterQuality
  rw [q_keeps_use_webp_flag, w_sets_use_webp_flag]
  simp [initConfig]

/-- remove_textures is still clear when the ratio block runs. -/
theorem afterQuality_remove_textures (inp outp : String) (args : List String) :
    ((afterQuality inp outp args).1).remove_textures = false := by
  unfold afterQuality
  rw [q_keeps_remove_textures, w_keeps_remove_textures]
  simp [initConfig]

/-- apply_texture_path is still unset when the ratio block runs. -/
theorem afterQuality_apply_texture_path (inp outp : String) (args : List String) :
    ((afterQuality inp outp args).1).apply_texture_path = none := by
  unfold afterQuality
  rw [q_keeps_apply_texture_path, w_keeps_apply_texture_path]
  simp [initConfig]

/-- normal_map_size is still unset when the ratio block runs. -/
theorem afterQuality_normal_map_size (inp outp : String) (args : List String) :
    ((afterQuality inp outp args).1).normal_map_size = none := by
  unfold afterQuality
  rw [q_keeps_normal_map_size, w_keeps_normal_map_size]
  simp [initConfig]

/-- C7: for every integer value passed to --texture-quality, the stored
texture_quality is the value clamped to [0, 100]: negative values become 0,
values above 100 become 100, and values inside the range are stored
unchanged. -/
theorem texture_quality_clamped (inp outp : String) (rest : List String)
    (v : String) (n : Int) (cfg : Config) (log : List String)
    (hv : flagVal (inp :: outp :: rest) "--texture-quality" = some v)
    (hn : pyInt v = some n)
    (h : parseArgs (inp :: outp :: rest) = POutcome.parsed cfg log) :
    cfg.texture_quality = if n < 0 then 0 else if 100 < n then 100 else n := by
  obtain ⟨c3, hr, hcfg, hlog⟩ := parseArgs_parsed_inv h
  subst hcfg
  simp only [finishParse_texture_quality, hv, hn]

/-- C7 witness: --texture-quality 150 is stored as 100. -/
theorem texture_quality_clamped_witness :
    (POutcome.cfg?
        (parseArgs ["model.fbx", "out.fbx", "--texture-quality", "150"])).map
      Config.texture_quality = some 100 := by
  have h0 : (parseArgs
      ["model.fbx", "out.fbx", "--texture-quality", "150"]).isParsed = true := by
    decide
  rcases hp : parseArgs ["model.fbx", "out.fbx", "--texture-quality", "150"] with
    _ | ⟨n, l⟩ | ⟨cfg, log⟩
  · rw [hp] at h0
    simp [POutcome.isParsed] at h0
  · rw [hp] at h0
    simp [POutcome.isParsed] at h0
  · have hq := texture_quality_clamped "model.fbx" "out.fbx"
      ["--texture-quality", "150"] "150" 150 cfg log rfl rfl hp
    simp [POutcome.cfg?, hq]

/-- C2 counterexample: a non-numeric --texture-size value is reported but
parsing continues and the whole run exits 0 with an export, so not every
failed numeric option token aborts. -/
theorem invalid_texture_size_does_not_abort :
    convertRun ["model.fbx", "out.fbx", "--texture-size", "abc"]
        ⟨true⟩ = RunOut.done 0 true
      ∧ POutcome.isParsed
          (parseArgs ["model.fbx", "out.fbx", "--texture-size", "abc"]) = true := by
  constructor <;> decide

/-- C2 amended: of the numeric options only --ratio can abort: an ASCII
--ratio token that Python float() rejects (neither a finite literal nor
inf/nan) is reported and the script exits with code 1 before importing or
exporting anything, whereas whenever every --ratio token (if any) is
accepted by float(), parsing always finishes — the other numeric options
never abort. -/
theorem invalid_ratio_aborts (inp outp : String) (rest : List String)
    (env : BEnv) :
    (∀ v, flagVal (inp :: outp :: rest) "--ratio" = some v
      → allAscii v = true → pyFloat v = none → pyFloatSpecial v = false
      → (parseArgs (inp :: outp :: rest)).exitCode? = some 1
        ∧ ("Invalid ratio value: " ++ v) ∈ (parseArgs (inp :: outp :: rest)).logOf
        ∧ convertRun (inp :: outp :: rest) env = RunOut.done 1 false)
      ∧ ((∀ v, flagVal (inp :: outp :: rest) "--ratio" = some v
          → ((pyFloat v).isSome || pyFloatSpecial v) = true)
        → (parseArgs (inp :: outp :: rest)).isParsed = true) := by
  constructor
  · intro v hv _ hp hsp
    have hr : step_ratio (inp :: outp :: rest)
        (afterQuality inp outp (inp :: outp :: rest)).1
          = Except.error ("Invalid ratio value: " ++ v) := by
      simp only [step_ratio, hv, hp, hsp]
      rfl
    have hparse : parseArgs (inp :: outp :: rest)
        = POutcome.exited 1 ((afterQuality inp outp (inp :: outp :: rest)).2
            ++ ["Invalid ratio value: " ++ v]) := by
      simp only [parseArgs, hr]
    refine ⟨?_, ?_, ?_⟩
    · rw [hparse]
      rfl
    · rw [hparse]
      simp [POutcome.logOf]
    · simp only [convertRun, hparse]
  · intro hok
    obtain ⟨c3, hc3⟩ : ∃ c3, step_ratio (inp :: outp :: rest)
        (afterQuality inp outp (inp :: outp :: rest)).1 = Except.ok c3 := by
      rcases hf : flagVal (inp :: outp :: rest) "--ratio" with _ | v
      · exact ⟨(afterQuality inp outp (inp :: outp :: rest)).1,
          by simp only [step_ratio, hf]⟩
      · have hs := hok v hf
        rcases hp : pyFloat v with _ | r
        · rw [hp] at hs
          simp only [Option.isSome_none, Bool.false_or] at hs
          exact ⟨(afterQuality inp outp (inp :: outp :: rest)).1,
            by simp only [step_ratio, hf, hp, hs, if_true]⟩
        · exact ⟨{ (afterQuality inp outp (inp :: outp :: rest)).1 with
            ratio := r }, by simp only [step_ratio, hf, hp]⟩
    have hparse : parseArgs (inp :: outp :: rest)
        = POutcome.parsed (finishParse (inp :: outp :: rest) c3).1
            ((afterQuality inp outp (inp :: outp :: rest)).2
              ++ (finishParse (inp :: outp :: rest) c3).2) := by
      simp only [parseArgs, hc3]
    rw [hparse]
    rfl

/-- C2 amended witness: --ratio abc exits 1 with the error reported and no
export, while --ratio 0.5 lets parsing finish. -/
theorem invalid_ratio_aborts_witness :
    (parseArgs ["model.fbx", "out.fbx", "--ratio", "abc"]).exitCode? = some 1
      ∧ ("Invalid ratio value: " ++ "abc")
          ∈ (parseArgs ["model.fbx", "out.fbx", "--ratio", "abc"]).logOf
      ∧ convertRun ["model.fbx", "out.fbx", "--ratio", "abc"] ⟨true⟩
          = RunOut.done 1 false
      ∧ (parseArgs ["model.fbx", "out.fbx", "--ratio", "0.5"]).isParsed = true := by
  obtain ⟨hA, -⟩ := invalid_ratio_aborts "model.fbx" "out.fbx"
    ["--ratio", "abc"] ⟨true⟩
  obtain ⟨h1, h2, h3⟩ := hA "abc" rfl (by decide) (by decide) (by decide)
  obtain ⟨-, hB⟩ := invalid_ratio_aborts "model.fbx" "out.fbx"
    ["--ratio", "0.5"] ⟨true⟩
  refine ⟨h1, h2, h3, hB ?_⟩
  intro v hv
  rw [show flagVal ["model.fbx", "out.fbx", "--ratio", "0.5"] "--ratio"
      = some "0.5" from rfl] at hv
  injection hv with hv
  subst hv
  decide

/-- C3 counterexample: a non-numeric --ratio value is an argument-parse
error that is neither a missing positional argument nor an unsupported
extension, yet execution does not continue: the script exits with code 1. -/
theorem invalid_ratio_is_fatal :
    convertRun ["in.glb", "out.fbx", "--ratio", "xyz"] ⟨true⟩ = RunOut.done 1 false
      ∧ POutcome.isParsed
          (parseArgs ["in.glb", "out.fbx", "--ratio", "xyz"]) = false := by
  constructor <;> decide

/-- C3 amended: of the argument-parse errors only a bad --ratio value is
fatal: whenever every --ratio token (if any) is accepted by Python float(),
parsing always reaches its end, and an ASCII value rejected by the
respective parser for --quality, --texture-size, --normal-map-size,
--texture-format or --texture-quality is reported on the console while the
previously held value (default, --webp override or preset) is retained and
execution continues. -/
theorem nonfatal_numeric_parse_errors (inp outp : String) (rest : List String)
    (hr : ∀ s, flagVal (inp :: outp :: rest) "--ratio" = some s
      → ((pyFloat s).isSome || pyFloatSpecial s) = true) :
    (parseArgs (inp :: outp :: rest)).isParsed = true
      ∧ (∀ v, flagVal (inp :: outp :: rest) "--quality" = some v
          → allAscii v = true → pyInt v = none
          → ∀ cfg log, parseArgs (inp :: outp :: rest) = POutcome.parsed cfg log
          → (afterQuality inp outp (inp :: outp :: rest)).1
              = step_webp (inp :: outp :: rest)
                  (initConfig inp outp (inp :: outp :: rest))
            ∧ ("Invalid quality value: " ++ v ++ ", using defaults") ∈ log)
      ∧ (∀ v, flagVal (inp :: outp :: rest) "--texture-size" = some v
          → allAscii v = true → pyInt v = none
          → ∀ cfg log, parseArgs (inp :: outp :: rest) = POutcome.parsed cfg log
          → cfg.texture_size
              = ((afterQuality inp outp (inp :: outp :: rest)).1).texture_size
            ∧ ("Invalid texture size: " ++ v) ∈ log)
      ∧ (∀ v, flagVal (inp :: outp :: rest) "--normal-map-size" = some v
          → allAscii v = true → pyInt v = none
          → ∀ cfg log, parseArgs (inp :: outp :: rest) = POutcome.parsed cfg log
          → cfg.normal_map_size = some cfg.texture_size
            ∧ ("Invalid normal map size: " ++ v) ∈ log)
      ∧ (∀ v, flagVal (inp :: outp :: rest) "--texture-format" = some v
          → allAscii v = true
          → (py_upper v == "PNG" || py_upper v == "JPEG") = false
          → ∀ cfg log, parseArgs (inp :: outp :: rest) = POutcome.parsed cfg log
          → cfg.texture_format
              = ((afterQuality inp outp (inp :: outp :: rest)).1).texture_format
            ∧ ("Invalid texture format: " ++ v ++ ", using "
                ++ ((afterQuality inp outp (inp :: outp :: rest)).1).texture_format)
              ∈ log)
      ∧ (∀ v, flagVal (inp :: outp :: rest) "--texture-quality" = some v
          → allAscii v = true → pyInt v = none
          → ∀ cfg log, parseArgs (inp :: outp :: rest) = POutcome.parsed cfg log
          → cfg.texture_quality
              = ((afterQuality inp outp (inp :: outp :: rest)).1).texture_quality
            ∧ ("Invalid texture quality: " ++ v) ∈ log) := by
  obtain ⟨c3, hok⟩ : ∃ c3, step_ratio (inp :: outp :: rest)
      (afterQuality inp outp (inp :: outp :: rest)).1 = Except.ok c3 := by
    rcases hf : flagVal (inp :: outp :: rest) "--ratio" with _ | s
    · exact ⟨(afterQuality inp outp (inp :: outp :: rest)).1,
        by simp only [step_ratio, hf]⟩
    · have hs := hr s hf
      rcases hps : pyFloat s with _ | r
      · rw [hps] at hs
        simp only [Option.isSome_none, Bool.false_or] at hs
        exact ⟨(afterQuality inp outp (inp :: outp :: rest)).1,
          by simp only [step_ratio, hf, hps, hs, if_true]⟩
      · exact ⟨{ (afterQuality inp outp (inp :: outp :: rest)).1 with ratio := r },
          by simp only [step_ratio, hf, hps]⟩
  have hparse : parseArgs (inp :: outp :: rest)
      = POutcome.parsed (finishParse (inp :: outp :: rest) c3).1
          ((afterQuality inp outp (inp :: outp :: rest)).2
            ++ (finishParse (inp :: outp :: rest) c3).2) := by
    simp only [parseArgs, hok]
  refine ⟨by rw [hparse]; rfl, ?_, ?_, ?_, ?_, ?_⟩
  · intro v hv _ hn cfg log hp
    rw [hparse] at hp
    simp only [POutcome.parsed.injEq] at hp
    obtain ⟨hc, hl⟩ := hp
    have hAq : afterQuality inp outp (inp :: outp :: rest)
        = (step_webp (inp :: outp :: rest)
              (initConfig inp outp (inp :: outp :: rest)),
           ["Invalid quality value: " ++ v ++ ", using defaults"]) := by
      unfold afterQuality
      simp only [step_quality, hv, hn]
    constructor
    · rw [hAq]
    · rw [← hl, hAq]
      simp
  · intro v hv _ hn cfg log hp
    rw [hparse] at hp
    simp only [POutcome.parsed.injEq] at hp
    obtain ⟨hc, hl⟩ := hp
    constructor
    · rw [← hc]
      simp only [finishParse_texture_size, hv, hn]
      exact (step_ratio_ok_proj hok).2.2.2.1
    · have hts : (step_texture_size (inp :: outp :: rest) c3).2
          = ["Invalid texture size: " ++ v] := by
        simp [step_texture_size, hv, hn]
      rw [← hl]
      refine List.mem_append_right _ ?_
      unfold finishParse
      dsimp only
      rw [hts]
      simp
  · intro v hv _ hn cfg log hp
    rw [hparse] at hp
    simp only [POutcome.parsed.injEq] at hp
    obtain ⟨hc, hl⟩ := hp
    have hX : (step_apply_texture (inp :: outp :: rest)
        (step_bools (inp :: outp :: rest)
          (step_texture_quality (inp :: outp :: rest)
            (step_texture_format (inp :: outp :: rest)
              (step_normal_map_size (inp :: outp :: rest)
                (step_texture_size (inp :: outp :: rest)
                  c3).1).1).1).1)).normal_map_size = none := by
      rw [a_keeps_normal_map_size, b_keeps_normal_map_size,
        tq_keeps_normal_map_size, tf_keeps_normal_map_size]
      simp only [step_normal_map_size, hv, hn]
      rw [ts_keeps_normal_map_size, (step_ratio_ok_proj hok).2.2.2.2.1,
        afterQuality_normal_map_size]
    constructor
    · rw [← hc]
      unfold finishParse
      dsimp only
      simp [step_nm_default, hX]
    · have hnm2 : (step_normal_map_size (inp :: outp :: rest)
          (step_texture_size (inp :: outp :: rest) c3).1).2
          = ["Invalid normal map size: " ++ v] := by
        simp [step_normal_map_size, hv, hn]
      rw [← hl]
      refine List.mem_append_right _ ?_
      unfold finishParse
      dsimp only
      rw [hnm2]
      simp
  · intro v hv _ hfmt cfg log hp
    rw [hparse] at hp
    simp only [POutcome.parsed.injEq] at hp
    obtain ⟨hc, hl⟩ := hp
    have hXtf : ((step_normal_map_size (inp :: outp :: rest)
        (step_texture_size (inp :: outp :: rest) c3).1).1).texture_format
        = ((afterQuality inp outp (inp :: outp :: rest)).1).texture_format := by
      rw [nm_keeps_texture_format, ts_keeps_texture_format]
      exact (step_ratio_ok_proj hok).2.2.2.2.2.2.2.2.1
    constructor
    · rw [← hc]
      have := (step_ratio_ok_proj hok).2.2.2.2.2.2.2.2.1
      simp only [finishParse_texture_format, hv, hfmt]
      simpa using this
    · have htf2 : (step_texture_format (inp :: outp :: rest)
          (step_normal_map_size (inp :: outp :: rest)
            (step_texture_size (inp :: outp :: rest) c3).1).1).2
          = ["Invalid texture format: " ++ v ++ ", using "
              ++ ((afterQuality inp outp (inp :: outp :: rest)).1).texture_format]
          := by
        rw [← hXtf]
        simp [step_texture_format, hv, hfmt]
      rw [← hl]
      refine List.mem_append_right _ ?_
      unfold finishParse
      dsimp only
      rw [htf2]
      simp
  · intro v hv _ hn cfg log hp
    rw [hparse] at hp
    simp only [POutcome.parsed.injEq] at hp
    obtain ⟨hc, hl⟩ := hp
    constructor
    · rw [← hc]
      simp only [finishParse_texture_quality, hv, hn]
      exact (step_ratio_ok_proj hok).2.2.2.2.2.2.2.2.2.1
    · have htq : (step_texture_quality (inp :: outp :: rest)
          (step_texture_format (inp :: outp :: rest)
            (step_normal_map_size (inp :: outp :: rest)
              (step_texture_size (inp :: outp :: rest) c3).1).1).1).2
          = ["Invalid texture quality: " ++ v] := by
        simp [step_texture_quality, hv, hn]
      rw [← hl]
      refine List.mem_append_right _ ?_
      unfold finishParse
      dsimp only
      rw [htq]
      simp

/-- C3 amended witness: with invalid values for --quality, --texture-size,
--normal-map-size, --texture-format and --texture-quality all at once,
parsing still finishes, all five errors are reported, and the defaults 512 /
PNG / 90 are kept, with the normal map size falling back to the texture
size. -/
theorem nonfatal_numeric_parse_errors_witness :
    (parseArgs
        ["model.fbx", "out.fbx", "--texture-size", "big",
         "--normal-map-size", "wide", "--texture-format", "webp",
         "--texture-quality", "high", "--quality", "ultra"]).isParsed = true
      ∧ (POutcome.cfg? (parseArgs
          ["model.fbx", "out.fbx", "--texture-size", "big",
           "--normal-map-size", "wide", "--texture-format", "webp",
           "--texture-quality", "high", "--quality", "ultra"])).map
          Config.texture_size = some 512
      ∧ (POutcome.cfg? (parseArgs
          ["model.fbx", "out.fbx", "--texture-size", "big",
           "--normal-map-size", "wide", "--texture-format", "webp",
           "--texture-quality", "high", "--quality", "ultra"])).map
          Config.normal_map_size = some (some 512)
      ∧ (POutcome.cfg? (parseArgs
          ["model.fbx", "out.fbx", "--texture-size", "big",
           "--normal-map-size", "wide", "--texture-format", "webp",
           "--texture-quality", "high", "--quality", "ultra"])).map
          Config.texture_format = some "PNG"
      ∧ (POutcome.cfg? (parseArgs
          ["model.fbx", "out.fbx", "--texture-size", "big",
           "--normal-map-size", "wide", "--texture-format", "webp",
           "--texture-quality", "high", "--quality", "ultra"])).map
          Config.texture_quality = some 90
      ∧ ("Invalid quality value: " ++ "ultra" ++ ", using defaults")
          ∈ (parseArgs
              ["model.fbx", "out.fbx", "--texture-size", "big",
               "--normal-map-size", "wide", "--texture-format", "webp",
               "--texture-quality", "high", "--quality", "ultra"]).logOf
      ∧ ("Invalid texture size: " ++ "big")
          ∈ (parseArgs
              ["model.fbx", "out.fbx", "--texture-size", "big",
               "--normal-map-size", "wide", "--texture-format", "webp",
               "--texture-quality", "high", "--quality", "ultra"]).logOf
      ∧ ("Invalid normal map size: " ++ "wide")
          ∈ (parseArgs
              ["model.fbx", "out.fbx", "--texture-size", "big",
               "--normal-map-size", "wide", "--texture-format", "webp",
               "--texture-quality", "high", "--quality", "ultra"]).logOf
      ∧ ("Invalid texture format: " ++ "webp" ++ ", using " ++ "PNG")
          ∈ (parseArgs
              ["model.fbx", "out.fbx", "--texture-size", "big",
               "--normal-map-size", "wide", "--texture-format", "webp",
               "--texture-quality", "high", "--quality", "ultra"]).logOf
      ∧ ("Invalid texture quality: " ++ "high")
          ∈ (parseArgs
              ["model.fbx", "out.fbx", "--texture-size", "big",
               "--normal-map-size", "wide", "--texture-format", "webp",
               "--texture-quality", "high", "--quality", "ultra"]).logOf := by
  obtain ⟨h1, h2, h3, h4, h5, h6⟩ := nonfatal_numeric_parse_errors
    "model.fbx" "out.fbx"
    ["--texture-size", "big", "--normal-map-size", "wide", "--texture-format",
     "webp", "--texture-quality", "high", "--quality", "ultra"]
    (fun s hs => by
      rw [show flagVal
          ["model.fbx", "out.fbx", "--texture-size", "big",
           "--normal-map-size", "wide", "--texture-format", "webp",
           "--texture-quality", "high", "--quality", "ultra"] "--ratio"
          = none from rfl] at hs
      exact Option.noConfusion hs)
  rcases hp : parseArgs
      ["model.fbx", "out.fbx", "--texture-size", "big",
       "--normal-map-size", "wide", "--texture-format", "webp",
       "--texture-quality", "high", "--quality", "ultra"]
    with _ | ⟨n, l⟩ | ⟨cfg, log⟩
  · rw [hp] at h1
    simp [POutcome.isParsed] at h1
  · rw [hp] at h1
    simp [POutcome.isParsed] at h1
  · obtain ⟨hq, hmq⟩ := h2 "ultra" rfl (by decide) (by decide) cfg log hp
    obtain ⟨hts, hm1⟩ := h3 "big" rfl (by decide) (by decide) cfg log hp
    obtain ⟨hnm, hm2⟩ := h4 "wide" rfl (by decide) (by decide) cfg log hp
    obtain ⟨htf, hm3⟩ := h5 "webp" rfl (by decide) (by decide) cfg log hp
    obtain ⟨htq, hm4⟩ := h6 "high" rfl (by decide) (by decide) cfg log hp
    have h512 : cfg.texture_size = 512 := by
      rw [hts]
      decide
    have hPNG : ((afterQuality "model.fbx" "out.fbx"
        ["model.fbx", "out.fbx", "--texture-size", "big",
         "--normal-map-size", "wide", "--texture-format", "webp",
         "--texture-quality", "high", "--quality", "ultra"]).1).texture_format
        = "PNG" := by
      decide
    refine ⟨rfl, ?_, ?_, ?_, ?_, ?_, ?_, ?_, ?_, ?_⟩
    · simp [POutcome.cfg?, h512]
    · have hn512 : cfg.normal_map_size = some 512 := by
        rw [hnm, h512]
      simp [POutcome.cfg?, hn512]
    · have hfPNG : cfg.texture_format = "PNG" := by
        rw [htf, hPNG]
      simp [POutcome.cfg?, hfPNG]
    · have h90 : cfg.texture_quality = 90 := by
        rw [htq]
        decide
      simp [POutcome.cfg?, h90]
    · exact hmq
    · exact hm1
    · exact hm2
    · rw [hPNG] at hm3
      exact hm3
    · exact hm4

/-- C1: with a valid --quality preset 1-5 and no --webp flag, each of the
four fields ratio, texture_size, texture_format and texture_quality of the
finished configuration equals the coded preset bundle for that level when
its explicit flag is absent, and equals the explicit flag's (parsed,
normalized) value when the flag is present with a valid value — so presets
apply first, explicit flags override exactly their own field, and the other
preset-set fields stay intact. -/
theorem quality_presets_and_overrides (inp outp : String) (rest : List String)
    (cfg : Config) (log : List String) (qs : String) (q : Int)
    (h : parseArgs (inp :: outp :: rest) = POutcome.parsed cfg log)
    (hweb : (inp :: outp :: rest).contains "--webp" = false)
    (hq : flagVal (inp :: outp :: rest) "--quality" = some qs)
    (hqi : pyInt qs = some q) (h1 : 1 ≤ q) (h5 : q ≤ 5) :
    (flagVal (inp :: outp :: rest) "--ratio" = none
        → cfg.ratio = presetRatio q)
      ∧ (∀ s r, flagVal (inp :: outp :: rest) "--ratio" = some s
        → pyFloat s = some r → cfg.ratio = r)
      ∧ (flagVal (inp :: outp :: rest) "--texture-size" = none
        → cfg.texture_size = presetTextureSize q)
      ∧ (∀ s n, flagVal (inp :: outp :: rest) "--texture-size" = some s
        → pyInt s = some n → cfg.texture_size = n)
      ∧ (flagVal (inp :: outp :: rest) "--texture-format" = none
        → cfg.texture_format = presetTextureFormat q)
      ∧ (∀ s, flagVal (inp :: outp :: rest) "--texture-format" = some s
        → (py_upper s == "PNG" || py_upper s == "JPEG") = true
        → cfg.texture_format = py_upper s)
      ∧ (flagVal (inp :: outp :: rest) "--texture-quality" = none
        → cfg.texture_quality = presetTextureQuality q)
      ∧ (∀ s n, flagVal (inp :: outp :: rest) "--texture-quality" = some s
        → pyInt s = some n
        → cfg.texture_quality = if n < 0 then 0 else if 100 < n then 100 else n) := by
  obtain ⟨c3, hrat, hcfg, hlog⟩ := parseArgs_parsed_inv h
  subst hcfg
  have P := step_ratio_ok_proj hrat
  have hApre : (afterQuality inp outp (inp :: outp :: rest)).1
      = (step_quality (inp :: outp :: rest)
          (step_webp (inp :: outp :: rest)
            (initConfig inp outp (inp :: outp :: rest)))).1 := rfl
  have hW : step_webp (inp :: outp :: rest)
      (initConfig inp outp (inp :: outp :: rest))
        = initConfig inp outp (inp :: outp :: rest) := by
    unfold step_webp
    rw [hweb]
    simp
  refine ⟨?_, ?_, ?_, ?_, ?_, ?_, ?_, ?_⟩
  · intro hnone
    rw [finishParse_ratio]
    have hc3 : c3 = (afterQuality inp outp (inp :: outp :: rest)).1 := by
      simp only [step_ratio, hnone] at hrat
      injection hrat with hrat
      exact hrat.symm
    rw [hc3, hApre, hW]
    simp only [step_quality, hq, hqi]
    interval_cases q <;> simp [presetRatio, initConfig]
  · intro s r hs hr2
    rw [finishParse_ratio]
    simp only [step_ratio, hs, hr2] at hrat
    injection hrat with hrat
    rw [← hrat]
  · intro hnone
    simp only [finishParse_texture_size, hnone]
    rw [P.2.2.2.1, hApre, hW]
    simp only [step_quality, hq, hqi]
    interval_cases q <;> simp [presetTextureSize, initConfig]
  · intro s n hs hn
    simp only [finishParse_texture_size, hs, hn]
  · intro hnone
    simp only [finishParse_texture_format, hnone]
    rw [P.2.2.2.2.2.2.2.2.1, hApre, hW]
    simp only [step_quality, hq, hqi]
    interval_cases q <;> simp [presetTextureFormat, initConfig]
  · intro s hs hok
    simp only [finishParse_texture_format, hs, hok]
    simp
  · intro hnone
    simp only [finishParse_texture_quality, hnone]
    rw [P.2.2.2.2.2.2.2.2.2.1, hApre, hW]
    simp only [step_quality, hq, hqi]
    interval_cases q <;> simp [presetTextureQuality, initConfig]
  · intro s n hs hn
    simp only [finishParse_texture_quality, hs, hn]

/-- C1 witness: --quality 2 with an explicit --ratio 0.5 yields ratio 1/2
while texture_size, texture_format and texture_quality keep the preset-2
values 512, JPEG, 85. -/
theorem quality_presets_and_overrides_witness :
    (POutcome.cfg? (parseArgs
        ["model.fbx", "out.fbx", "--quality", "2", "--ratio", "0.5"])).map
      (fun c => (c.ratio, c.texture_size, c.texture_format, c.texture_quality))
      = some (1 / 2, 512, "JPEG", 85) := by
  have h0 : (parseArgs
      ["model.fbx", "out.fbx", "--quality", "2", "--ratio", "0.5"]).isParsed
        = true := by decide
  rcases hp : parseArgs
      ["model.fbx", "out.fbx", "--quality", "2", "--ratio", "0.5"] with
    _ | ⟨n, l⟩ | ⟨cfg, log⟩
  · rw [hp] at h0
    simp [POutcome.isParsed] at h0
  · rw [hp] at h0
    simp [POutcome.isParsed] at h0
  · obtain ⟨ha, hb, hc, hd, he, hf, hg, hh⟩ :=
      quality_presets_and_overrides "model.fbx" "out.fbx"
        ["--quality", "2", "--ratio", "0.5"] cfg log "2" 2 hp rfl rfl rfl
        (by norm_num) (by norm_num)
    have hr := hb "0.5" (1 / 2) rfl (by
      have h1 : pyFloat "0.5"
          = some (((0 : ℕ) : ℚ) + ((5 : ℕ) : ℚ) / (10 : ℚ) ^ 1) := rfl
      rw [h1]
      norm_num)
    have hts := hc rfl
    have htf := he rfl
    have htq := hg rfl
    simp [POutcome.cfg?, hr, hts, htf, htq, presetTextureSize,
      presetTextureFormat, presetTextureQuality]

/-- C9: because the --webp block runs before the --quality block and before
the explicit flag blocks, combining --webp with --quality or with explicit
texture flags silently replaces the webp-forced values (JPEG / 30 / 32) with
the preset's or flag's values for every field they set (presets 3-5 set no
texture quality, so the forced 30 persists there), while use_webp_flag stays
set and the post-export WebP conversion still runs. -/
theorem webp_overridden_by_presets_and_flags (inp outp : String)
    (rest : List String) (cfg : Config) (log : List String)
    (h : parseArgs (inp :: outp :: rest) = POutcome.parsed cfg log)
    (hweb : (inp :: outp :: rest).contains "--webp" = true) :
    (∀ qs q, flagVal (inp :: outp :: rest) "--quality" = some qs
      → pyInt qs = some q → 1 ≤ q → q ≤ 5
      → (flagVal (inp :: outp :: rest) "--texture-size" = none
          → cfg.texture_size = presetTextureSize q)
        ∧ (flagVal (inp :: outp :: rest) "--texture-format" = none
          → cfg.texture_format = presetTextureFormat q)
        ∧ (flagVal (inp :: outp :: rest) "--texture-quality" = none
          → cfg.texture_quality = if q = 1 then 75 else if q = 2 then 85 else 30))
      ∧ (∀ s n, flagVal (inp :: outp :: rest) "--texture-size" = some s
        → pyInt s = some n → cfg.texture_size = n)
      ∧ (∀ s, flagVal (inp :: outp :: rest) "--texture-format" = some s
        → (py_upper s == "PNG" || py_upper s == "JPEG") = true
        → cfg.texture_format = py_upper s)
      ∧ (∀ s n, flagVal (inp :: outp :: rest) "--texture-quality" = some s
        → pyInt s = some n
        → cfg.texture_quality = if n < 0 then 0 else if 100 < n then 100 else n)
      ∧ cfg.use_webp_flag = true
      ∧ webpPostRuns cfg = true := by
  obtain ⟨c3, hrat, hcfg, hlog⟩ := parseArgs_parsed_inv h
  subst hcfg
  have P := step_ratio_ok_proj hrat
  have hApre : (afterQuality inp outp (inp :: outp :: rest)).1
      = (step_quality (inp :: outp :: rest)
          (step_webp (inp :: outp :: rest)
            (initConfig inp outp (inp :: outp :: rest)))).1 := rfl
  have hW : step_webp (inp :: outp :: rest)
      (initConfig inp outp (inp :: outp :: rest))
        = { initConfig inp outp (inp :: outp :: rest) with
            texture_format := "JPEG", texture_quality := 30, texture_size := 32,
            use_webp_flag := true } := by
    unfold step_webp
    rw [hweb]
    simp
  have huw : ((finishParse (inp :: outp :: rest) c3).1).use_webp_flag = true := by
    rw [finishParse_use_webp_flag, P.2.2.2.2.2.2.2.2.2.2.1,
      afterQuality_use_webp_flag, hweb]
  refine ⟨?_, ?_, ?_, ?_, huw, ?_⟩
  · intro qs q hq hqi h1 h5
    refine ⟨?_, ?_, ?_⟩
    · intro hnone
      simp only [finishParse_texture_size, hnone]
      rw [P.2.2.2.1, hApre, hW]
      simp only [step_quality, hq, hqi]
      interval_cases q <;> simp [presetTextureSize]
    · intro hnone
      simp only [finishParse_texture_format, hnone]
      rw [P.2.2.2.2.2.2.2.2.1, hApre, hW]
      simp only [step_quality, hq, hqi]
      interval_cases q <;> simp [presetTextureFormat]
    · intro hnone
      simp only [finishParse_texture_quality, hnone]
      rw [P.2.2.2.2.2.2.2.2.2.1, hApre, hW]
      simp only [step_quality, hq, hqi]
      interval_cases q <;> norm_num
  · intro s n hs hn
    simp only [finishParse_texture_size, hs, hn]
  · intro s hs hok
    simp only [finishParse_texture_format, hs, hok]
    simp
  · intro s n hs hn
    simp only [finishParse_texture_quality, hs, hn]
  · simp [webpPostRuns, huw]

/-- C9 witness: --webp with --quality 3 yields texture_size 1024 and PNG
from the preset, texture_quality 30 persisting from --webp, and the WebP
post-processing still scheduled. -/
theorem webp_overridden_witness :
    (POutcome.cfg? (parseArgs
        ["model.fbx", "out.glb", "--glb", "--webp", "--quality", "3"])).map
      (fun c => (c.texture_size, c.texture_format, c.texture_quality,
        c.use_webp_flag, webpPostRuns c))
      = some (1024, "PNG", 30, true, true) := by
  have h0 : (parseArgs
      ["model.fbx", "out.glb", "--glb", "--webp", "--quality", "3"]).isParsed
        = true := by decide
  rcases hp : parseArgs
      ["model.fbx", "out.glb", "--glb", "--webp", "--quality", "3"] with
    _ | ⟨n, l⟩ | ⟨cfg, log⟩
  · rw [hp] at h0
    simp [POutcome.isParsed] at h0
  · rw [hp] at h0
    simp [POutcome.isParsed] at h0
  · obtain ⟨hq, hts, htf, htq, huw, hpost⟩ :=
      webp_overridden_by_presets_and_flags "model.fbx" "out.glb"
        ["--glb", "--webp", "--quality", "3"] cfg log hp rfl
    obtain ⟨h1024, hpng, h30⟩ := hq "3" 3 rfl rfl (by norm_num) (by norm_num)
    have e1 := h1024 rfl
    have e2 := hpng rfl
    have e3 := h30 rfl
    simp [POutcome.cfg?, e1, e2, e3, huw, hpost, presetTextureSize,
      presetTextureFormat]

/-- C6: for every input path whose (lowercased splitext) extension is
neither .fbx nor .glb nor .gltf, both mesh-processing scripts exit with
code 1 and write no output file. -/
theorem unsupported_extension_exits (inp outp : String) (rest : List String)
    (env : BEnv) (inp2 outp2 : String) (rest2 : List String) (env2 : BEnv)
    (hbad : (py_lower (splitext inp).2 == ".fbx"
        || py_lower (splitext inp).2 == ".glb"
        || py_lower (splitext inp).2 == ".gltf") = false)
    (hbad2 : (py_lower (splitext inp2).2 == ".fbx"
        || py_lower (splitext inp2).2 == ".glb"
        || py_lower (splitext inp2).2 == ".gltf") = false) :
    convertRun (inp :: outp :: rest) env = RunOut.done 1 false
      ∧ Shade.applyShadedRun (inp2 :: outp2 :: rest2) env2
          = RunOut.done 1 false := by
  constructor
  · rcases hr : step_ratio (inp :: outp :: rest)
        (afterQuality inp outp (inp :: outp :: rest)).1 with m | c3
    · have hparse : parseArgs (inp :: outp :: rest)
          = POutcome.exited 1
              ((afterQuality inp outp (inp :: outp :: rest)).2 ++ [m]) := by
        simp only [parseArgs, hr]
      simp only [convertRun, hparse]
    · have hparse : parseArgs (inp :: outp :: rest)
          = POutcome.parsed (finishParse (inp :: outp :: rest) c3).1
              ((afterQuality inp outp (inp :: outp :: rest)).2
                ++ (finishParse (inp :: outp :: rest) c3).2) := by
        simp only [parseArgs, hr]
      have P := step_ratio_ok_proj hr
      have hip : ((finishParse (inp :: outp :: rest) c3).1).input_path = inp := by
        rw [finishParse_input_path, P.1, afterQuality_input_path]
      simp only [convertRun, hparse, hip, hbad]
      simp
  · simp only [Shade.applyShadedRun, hbad2]
    simp

/-- C6 witness: a .png input makes both scripts exit 1 without writing. -/
theorem unsupported_extension_exits_witness :
    convertRun ["model.png", "out.fbx"] ⟨true⟩ = RunOut.done 1 false
      ∧ Shade.applyShadedRun ["texture.txt", "out.glb"] ⟨true⟩
          = RunOut.done 1 false :=
  unsupported_extension_exits "model.png" "out.fbx" [] ⟨true⟩
    "texture.txt" "out.glb" [] ⟨true⟩ (by decide) (by decide)

/-- C10: when --remove-textures and --keep-original-textures are both
passed (and no --apply-texture), remove wins: the texture section removes
every image datablock and replaces every mesh's materials with the single
flat gray SimpleMaterial, exactly as if keep_original_textures were
clear. -/
theorem remove_textures_wins (inp outp : String) (rest : List String)
    (cfg : Config) (log : List String) (s : BScene)
    (h : parseArgs (inp :: outp :: rest) = POutcome.parsed cfg log)
    (hrm : (inp :: outp :: rest).contains "--remove-textures" = true)
    (hap : flagVal (inp :: outp :: rest) "--apply-texture" = none) :
    cfg.remove_textures = true
      ∧ cfg.apply_texture_path = none
      ∧ textureSection cfg s = removeTexturesBranch s
      ∧ textureSection cfg s
          = textureSection { cfg with keep_original_textures := false } s
      ∧ (removeTexturesBranch s).images = []
      ∧ (∀ m ∈ (removeTexturesBranch s).meshes,
          m.materials = [simple_material]) := by
  obtain ⟨c3, hrat, hcfg, hlog⟩ := parseArgs_parsed_inv h
  subst hcfg
  have P := step_ratio_ok_proj hrat
  have hrm2 : ((finishParse (inp :: outp :: rest) c3).1).remove_textures
      = true := by
    rw [finishParse_remove_textures, hrm]
    simp
  have hap2 : ((finishParse (inp :: outp :: rest) c3).1).apply_texture_path
      = none := by
    simp only [finishParse_apply_texture_path, hap]
    rw [P.2.2.2.2.2.2.2.2.2.2.2, afterQuality_apply_texture_path]
  refine ⟨hrm2, hap2, ?_, ?_, rfl, ?_⟩
  · simp [textureSection, hrm2]
  · simp [textureSection, hrm2]
  · intro m hm
    simp only [removeTexturesBranch, List.mem_map] at hm
    obtain ⟨mm, hmm, rfl⟩ := hm
    rfl

/-- C10 witness: both flags together remove the images and gray out the
mesh on a one-image one-mesh scene. -/
theorem remove_textures_wins_witness :
    (POutcome.cfg? (parseArgs
        ["model.fbx", "out.fbx", "--remove-textures",
         "--keep-original-textures"])).map
      (fun c => textureSection c
        ⟨[⟨0, true, 64, 64, "PNG"⟩], [], [⟨[MatRef.imported "Mat0"]⟩]⟩)
      = some ⟨[], [], [⟨[simple_material]⟩]⟩ := by
  have h0 : (parseArgs
      ["model.fbx", "out.fbx", "--remove-textures",
       "--keep-original-textures"]).isParsed = true := by decide
  rcases hp : parseArgs
      ["model.fbx", "out.fbx", "--remove-textures",
       "--keep-original-textures"] with _ | ⟨n, l⟩ | ⟨cfg, log⟩
  · rw [hp] at h0
    simp [POutcome.isParsed] at h0
  · rw [hp] at h0
    simp [POutcome.isParsed] at h0
  · obtain ⟨h1, h2, h3, h4, h5, h6⟩ := remove_textures_wins "model.fbx"
      "out.fbx" ["--remove-textures", "--keep-original-textures"] cfg log
      ⟨[⟨0, true, 64, 64, "PNG"⟩], [], [⟨[MatRef.imported "Mat0"]⟩]⟩
      hp rfl rfl
    simp only [POutcome.cfg?, Option.map]
    rw [h3]
    rfl

/-- findImg only returns images carrying the looked-up identity. -/
theorem findImg_iid {store : List BImage} {i : Nat} {b : BImage}
    (h : findImg store i = some b) : b.iid = i := by
  induction store with
  | nil => simp [findImg] at h
  | cons b0 r ih =>
    simp only [findImg] at h
    split at h
    · injection h with h
      subst h
      assumption
    · exact ih h

/-- Mapping an identity-preserving function over the store maps through
findImg. -/
theorem findImg_map (g : BImage → BImage) (hg : ∀ b, (g b).iid = b.iid)
    (store : List BImage) (i : Nat) :
    findImg (store.map g) i = (findImg store i).map g := by
  induction store with
  | nil => rfl
  | cons b0 r ih =>
    simp only [List.map_cons, findImg, hg b0]
    split
    · rfl
    · exact ih

/-- The conditional resize of one loop iteration preserves identities. -/
theorem resize_cond_iid (j : Nat) (t : Int) (p : Bool) (b : BImage) :
    ((if b.iid = j ∧ imgTooBig b t then scaleTo b t p else b)).iid = b.iid := by
  split <;> rfl

/-- Effect of one resize-loop iteration on a lookup. -/
theorem findImg_resizeStep (store : List BImage) (j : Nat) (t : Int)
    (p : Bool) (i : Nat) :
    findImg (resizeStep store j t p) i
      = (findImg store i).map
          (fun b => if b.iid = j ∧ imgTooBig b t then scaleTo b t p else b) := by
  unfold resizeStep
  exact findImg_map _ (fun b => resize_cond_iid j t p b) store i

/-- A resize loop over identities not containing the looked-up one leaves
its image unchanged. -/
theorem findImg_resizeList_not_mem (ids : List Nat) (store : List BImage)
    (t : Int) (p : Bool) (i : Nat) (hni : i ∉ ids) :
    findImg (resizeList store ids t p) i = findImg store i := by
  induction ids generalizing store with
  | nil => rfl
  | cons j r ih =>
    have hij : i ≠ j := fun he => hni (he ▸ List.mem_cons_self j r)
    have hr : i ∉ r := fun he => hni (List.mem_cons_of_mem j he)
    show findImg (resizeList (resizeStep store j t p) r t p) i = _
    rw [ih (resizeStep store j t p) hr, findImg_resizeStep]
    rcases hf : findImg store i with _ | b
    · rfl
    · have hbi : b.iid = i := findImg_iid hf
      simp [hbi, hij]

/-- A resize loop leaves an image that already fails the resize guard
unchanged. -/
theorem findImg_resizeList_stable (ids : List Nat) (store : List BImage)
    (t : Int) (p : Bool) (i : Nat) (b : BImage)
    (hfind : findImg store i = some b) (hguard : imgTooBig b t = false) :
    findImg (resizeList store ids t p) i = some b := by
  induction ids generalizing store with
  | nil => exact hfind
  | cons j r ih =>
    show findImg (resizeList (resizeStep store j t p) r t p) i = _
    refine ih (resizeStep store j t p) ?_
    rw [findImg_resizeStep, hfind]
    simp [hguard]

/-- A freshly scaled image fails the resize guard for the same target. -/
theorem scaleTo_not_tooBig (b : BImage) (t : Int) (p : Bool) :
    imgTooBig (scaleTo b t p) t = false := by
  simp [imgTooBig, scaleTo]

/-- A resize loop whose identity list contains the looked-up image scales it
to the target exactly once when the guard holds. -/
theorem findImg_resizeList_scaled (ids : List Nat) (store : List BImage)
    (t : Int) (p : Bool) (i : Nat) (b : BImage)
    (hfind : findImg store i = some b) (hmem : i ∈ ids)
    (hguard : imgTooBig b t = true) :
    findImg (resizeList store ids t p) i = some (scaleTo b t p) := by
  induction ids generalizing store with
  | nil => exact absurd hmem (List.not_mem_nil i)
  | cons j r ih =>
    show findImg (resizeList (resizeStep store j t p) r t p) i = _
    by_cases hij : i = j
    · subst hij
      have hbi : b.iid = i := findImg_iid hfind
      have hstep : findImg (resizeStep store i t p) i = some (scaleTo b t p) := by
        rw [findImg_resizeStep, hfind]
        simp [hbi, hguard]
      exact findImg_resizeList_stable r _ t p i _ hstep (scaleTo_not_tooBig b t p)
    · have hr : i ∈ r := by
        rcases List.mem_cons.1 hmem with he | he
        · exact absurd he hij
        · exact he
      refine ih (resizeStep store j t p) ?_ hr
      rw [findImg_resizeStep, hfind]
      have hbi : b.iid = i := findImg_iid hfind
      simp [hbi, hij]

/-- The third sweep preserves identities. -/
theorem resizeRest_cond_iid (nm reg : List Nat) (t : Int) (b : BImage) :
    ((if ¬ nm.contains b.iid ∧ ¬ reg.contains b.iid ∧ imgTooBig b t then
        scaleTo b t false else b)).iid = b.iid := by
  split <;> rfl

/-- Effect of the third sweep on a lookup. -/
theorem findImg_resizeRest (store : List BImage) (nm reg : List Nat)
    (t : Int) (i : Nat) :
    findImg (resizeRest store nm reg t) i
      = (findImg store i).map
          (fun b => if ¬ nm.contains b.iid ∧ ¬ reg.contains b.iid
              ∧ imgTooBig b t then scaleTo b t false else b) := by
  unfold resizeRest
  exact findImg_map _ (fun b => resizeRest_cond_iid nm reg t b) store i

/-- C8 amended: the texture pass classifies per node, so an image can sit in
both the normal-map and the regular list; for an image in exactly one class
the pass resizes it to that class's target (setting PNG for normal maps)
precisely when it is currently larger, and leaves it unchanged otherwise;
unclassified images are treated like regular ones. -/
theorem texture_pass_per_class (nm_t tex_t : Int) (mats : List BMaterial)
    (store : List BImage) (i : Nat) (b : BImage)
    (hfind : findImg store i = some b) :
    (i ∈ normalMapsOf mats → i ∉ regularsOf mats →
      findImg (texturePass nm_t tex_t mats store) i
        = some (if imgTooBig b nm_t then scaleTo b nm_t true else b))
      ∧ (i ∉ normalMapsOf mats → i ∈ regularsOf mats →
        findImg (texturePass nm_t tex_t mats store) i
          = some (if imgTooBig b tex_t then scaleTo b tex_t false else b))
      ∧ (i ∉ normalMapsOf mats → i ∉ regularsOf mats →
        findImg (texturePass nm_t tex_t mats store) i
          = some (if imgTooBig b tex_t then scaleTo b tex_t false else b)) := by
  have hbi : b.iid = i := findImg_iid hfind
  refine ⟨?_, ?_, ?_⟩
  · intro hnm hreg
    unfold texturePass
    have h1 : findImg (resizeList store (normalMapsOf mats) nm_t true) i
        = some (if imgTooBig b nm_t then scaleTo b nm_t true else b) := by
      rcases hg : imgTooBig b nm_t
      · rw [if_neg (by simp [hg])]
        exact findImg_resizeList_stable _ _ _ _ _ _ hfind hg
      · rw [if_pos (by simp [hg])]
        exact findImg_resizeList_scaled _ _ _ _ _ _ hfind hnm hg
    have h2 := findImg_resizeList_not_mem (regularsOf mats)
      (resizeList store (normalMapsOf mats) nm_t true) tex_t false i hreg
    rw [findImg_resizeRest, h2, h1]
    have hXi : ((if imgTooBig b nm_t then scaleTo b nm_t true else b)).iid = i := by
      split <;> simp [scaleTo, hbi]
    have hmem : ((if imgTooBig b nm_t then scaleTo b nm_t true else b)).iid
        ∈ normalMapsOf mats := by
      rw [hXi]
      exact hnm
    simp [hmem]
  · intro hnm hreg
    unfold texturePass
    have h1 := findImg_resizeList_not_mem (normalMapsOf mats) store nm_t true i hnm
    rw [hfind] at h1
    have h2 : findImg (resizeList (resizeList store (normalMapsOf mats) nm_t true)
        (regularsOf mats) tex_t false) i
        = some (if imgTooBig b tex_t then scaleTo b tex_t false else b) := by
      rcases hg : imgTooBig b tex_t
      · rw [if_neg (by simp [hg])]
        exact findImg_resizeList_stable _ _ _ _ _ _ h1 hg
      · rw [if_pos (by simp [hg])]
        exact findImg_resizeList_scaled _ _ _ _ _ _ h1 hreg hg
    rw [findImg_resizeRest, h2]
    have hXi : ((if imgTooBig b tex_t then scaleTo b tex_t false else b)).iid
        = i := by
      split <;> simp [scaleTo, hbi]
    have hmem : ((if imgTooBig b tex_t then scaleTo b tex_t false else b)).iid
        ∈ regularsOf mats := by
      rw [hXi]
      exact hreg
    simp [hmem]
  · intro hnm hreg
    unfold texturePass
    have h1 := findImg_resizeList_not_mem (normalMapsOf mats) store nm_t true i hnm
    rw [hfind] at h1
    have h2 := findImg_resizeList_not_mem (regularsOf mats)
      (resizeList store (normalMapsOf mats) nm_t true) tex_t false i hreg
    rw [h1] at h2
    rw [findImg_resizeRest, h2, Option.map_some']
    have hA : ¬ ((normalMapsOf mats).contains b.iid = true) := by
      rw [hbi]
      exact fun hcon => hnm (List.mem_of_elem_eq_true hcon)
    have hB : ¬ ((regularsOf mats).contains b.iid = true) := by
      rw [hbi]
      exact fun hcon => hreg (List.mem_of_elem_eq_true hcon)
    split_ifs <;> first | rfl | simp_all

/-- C8 counterexample: an image feeding two TEX_IMAGE nodes, only one of
which drives a NORMAL_MAP node, lands in both classification lists (no
partition); at 512x512 with normal-map target 512 and texture target 256
the claim reads it as a normal map already within its class target and so
left unchanged, but the regular-texture loop rescales it to 256x256. -/
theorem shared_image_not_partitioned :
    0 ∈ normalMapsOf
        [⟨true, [⟨"TEX_IMAGE", some 0, [⟨["NORMAL_MAP"]⟩]⟩,
                 ⟨"TEX_IMAGE", some 0, [⟨[]⟩]⟩]⟩]
      ∧ 0 ∈ regularsOf
        [⟨true, [⟨"TEX_IMAGE", some 0, [⟨["NORMAL_MAP"]⟩]⟩,
                 ⟨"TEX_IMAGE", some 0, [⟨[]⟩]⟩]⟩]
      ∧ (POutcome.cfg? (parseArgs
          ["model.fbx", "out.fbx", "--texture-size", "256",
           "--normal-map-size", "512"])).map
          (fun c => textureSection c
            ⟨[⟨0, true, 512, 512, "TARGA"⟩],
             [⟨true, [⟨"TEX_IMAGE", some 0, [⟨["NORMAL_MAP"]⟩]⟩,
                      ⟨"TEX_IMAGE", some 0, [⟨[]⟩]⟩]⟩], []⟩)
        = some ⟨[⟨0, true, 256, 256, "TARGA"⟩],
            [⟨true, [⟨"TEX_IMAGE", some 0, [⟨["NORMAL_MAP"]⟩]⟩,
                     ⟨"TEX_IMAGE", some 0, [⟨[]⟩]⟩]⟩], []⟩ := by
  refine ⟨by decide, by decide, by decide⟩

/-- C8 amended witness: an image used only as a normal map, at 1024x1024
with targets 512/256, is rescaled once to 512x512 and forced to PNG. -/
theorem texture_pass_per_class_witness :
    findImg (texturePass 512 256
        [⟨true, [⟨"TEX_IMAGE", some 7, [⟨["NORMAL_MAP"]⟩]⟩]⟩]
        [⟨7, true, 1024, 1024, "TARGA"⟩]) 7
      = some ⟨7, true, 512, 512, "PNG"⟩ := by
  have H := (texture_pass_per_class 512 256
      [⟨true, [⟨"TEX_IMAGE", some 7, [⟨["NORMAL_MAP"]⟩]⟩]⟩]
      [⟨7, true, 1024, 1024, "TARGA"⟩] 7 ⟨7, true, 1024, 1024, "TARGA"⟩
      (by decide)).1 (by decide) (by decide)
  rw [H]
  decide

end Conv

namespace Lod

/-- grid_size evaluates to 32: 1000 = 31*31 + 39 with 39 ≤ 62. -/
theorem grid_size_eq : grid_size = 32 := by
  have h : (1000 : Nat) = 31 * 31 + 39 := by norm_num
  unfold grid_size
  rw [h, Nat.sqrt_add_eq 31 (by norm_num)]

/-- The nested loops with the concrete 32-element ranges. -/
theorem gridEntities_unfold :
    gridEntities = outerLoop (List.range 32) (List.range 32) 1 := by
  unfold gridEntities
  rw [grid_size_eq]

/-- The id field written by mkEntity is its entity counter. -/
theorem entityIdOf_mkEntity (eid x z : Nat) :
    entityIdOf (mkEntity eid x z) = some ((eid : ℕ) : ℚ) := rfl

/-- Specification of the inner z loop: it appends one entity per remaining
counter value up to 1000, its entities carry the consecutive ids, and the
counter advances accordingly. -/
theorem innerLoop_spec (x : Nat) (zs : List Nat) (eid : Nat) :
    (innerLoop x zs eid).1.filterMap entityIdOf
        = (List.range' eid (min zs.length (1001 - eid))).map (fun n => ((n : ℕ) : ℚ))
      ∧ (innerLoop x zs eid).1.length = min zs.length (1001 - eid)
      ∧ (innerLoop x zs eid).2
        = if 1000 < eid then eid else min (eid + zs.length) 1001 := by
  induction zs generalizing eid with
  | nil =>
    refine ⟨by simp [innerLoop], by simp [innerLoop], ?_⟩
    simp only [innerLoop, List.length_nil]
    by_cases h : 1000 < eid
    · simp [h]
    · simp [h]
      omega
  | cons z zs ih =>
    by_cases h : 1000 < eid
    · have h0 : 1001 - eid = 0 := by omega
      refine ⟨?_, ?_, ?_⟩ <;> simp [innerLoop, h, h0]
    · obtain ⟨ih1, ih2, ih3⟩ := ih (eid + 1)
      have hmin : min (z :: zs).length (1001 - eid)
          = min zs.length (1001 - (eid + 1)) + 1 := by
        simp only [List.length_cons]
        omega
      have hcons : innerLoop x (z :: zs) eid
          = (mkEntity eid x z :: (innerLoop x zs (eid + 1)).1,
             (innerLoop x zs (eid + 1)).2) := by
        simp [innerLoop, h]
      refine ⟨?_, ?_, ?_⟩
      · rw [hcons]
        simp only [List.filterMap_cons, entityIdOf_mkEntity, ih1, hmin,
          List.range'_succ, List.map_cons]
      · rw [hcons]
        simp only [List.length_cons, ih2, hmin]
        omega
      · rw [hcons]
        simp only [ih3, List.length_cons]
        split <;> omega

/-- Specification of the outer x loop for a 32-element inner range: the
appended entities carry the consecutive ids from the starting counter,
capped at 1000. -/
theorem outerLoop_spec (zs : List Nat) (hz : zs.length = 32) (xs : List Nat)
    (eid : Nat) :
    (outerLoop zs xs eid).filterMap entityIdOf
        = (List.range' eid (min (32 * xs.length) (1001 - eid))).map
            (fun n => ((n : ℕ) : ℚ))
      ∧ (outerLoop zs xs eid).length = min (32 * xs.length) (1001 - eid) := by
  induction xs generalizing eid with
  | nil => simp [outerLoop]
  | cons x xs ih =>
    obtain ⟨h1, h2, h3⟩ := innerLoop_spec x zs eid
    rw [hz] at h1 h2 h3
    by_cases ha : 1000 < eid
    · have hc : (innerLoop x zs eid).2 = eid := by rw [h3]; simp [ha]
      have h0 : 1001 - eid = 0 := by omega
      have : outerLoop zs (x :: xs) eid = (innerLoop x zs eid).1 := by
        simp [outerLoop, hc, ha]
      rw [this, h1, h2, h0]
      simp
    · by_cases hb : 1001 ≤ eid + 32
      · have hc : (innerLoop x zs eid).2 = 1001 := by rw [h3]; simp [ha]; omega
        have : outerLoop zs (x :: xs) eid = (innerLoop x zs eid).1 := by
          simp [outerLoop, hc]
        rw [this, h1, h2]
        have hm1 : min 32 (1001 - eid) = 1001 - eid := by omega
        have hm2 : min (32 * (x :: xs).length) (1001 - eid) = 1001 - eid := by
          simp only [List.length_cons]
          have : 32 ≤ 32 * (xs.length + 1) := by omega
          omega
        rw [hm1, hm2]
        exact ⟨rfl, rfl⟩
      · have hc : (innerLoop x zs eid).2 = eid + 32 := by
          rw [h3]; simp [ha]; omega
        have hstep : outerLoop zs (x :: xs) eid
            = (innerLoop x zs eid).1 ++ outerLoop zs xs (eid + 32) := by
          simp [outerLoop, hc]
          omega
        obtain ⟨ihh1, ihh2⟩ := ih (eid + 32)
        have hm1 : min 32 (1001 - eid) = 32 := by omega
        refine ⟨?_, ?_⟩
        · rw [hstep, List.filterMap_append, h1, ihh1, hm1, ← List.map_append]
          have happ : List.range' eid 32 ++ List.range' (eid + 32)
                (min (32 * xs.length) (1001 - (eid + 32)))
              = List.range' eid
                  (min (32 * xs.length) (1001 - (eid + 32)) + 32) := by
            have h := List.range'_append eid 32
              (min (32 * xs.length) (1001 - (eid + 32))) 1
            simp only [Nat.one_mul] at h
            exact h
          rw [happ]
          have : min (32 * xs.length) (1001 - (eid + 32)) + 32
              = min (32 * (x :: xs).length) (1001 - eid) := by
            simp only [List.length_cons]
            omega
          rw [this]
        · rw [hstep, List.length_append, h2, ihh2, hm1]
          simp only [List.length_cons]
          omega

/-- The grid entity ids are exactly 1, 2, ..., 1000 in order. -/
theorem gridIds_eq :
    gridIds = (List.range' 1 1000).map (fun n => ((n : ℕ) : ℚ)) := by
  unfold gridIds
  rw [gridEntities_unfold]
  have := (outerLoop_spec (List.range 32) (by simp) (List.range 32) 1).1
  simpa using this

/-- The nested loops append exactly 1000 grid entities. -/
theorem gridEntities_len : gridEntities.length = 1000 := by
  rw [gridEntities_unfold]
  have := (outerLoop_spec (List.range 32) (by simp) (List.range 32) 1).2
  simpa using this

/-- Every grid entity exposes a numeric id. -/
theorem gridIds_len : gridIds.length = 1000 := by
  rw [gridIds_eq, List.length_map, List.length_range']

/-- C4: the fixture generator, run with no arguments, produces a scene
document whose top-level keys are exactly name, version, entities and
metadata, whose entities list has exactly 1001 elements (the camera entity
followed by the 1000 grid entities), and whose grid entities carry ids that
are pairwise distinct and lie in [1, 1000].  The document is a JSON value
(JVal), so its json.dump serialization is valid JSON. -/
theorem fixture_scene_entities_and_keys :
    jkeys generate_performance_scene = ["name", "version", "entities", "metadata"]
      ∧ entitiesOf generate_performance_scene = cameraEntity :: gridEntities
      ∧ (entitiesOf generate_performance_scene).length = 1001
      ∧ gridIds.length = 1000
      ∧ List.Nodup gridIds
      ∧ gridIds.all (fun q => decide (1 ≤ q ∧ q ≤ 1000)) = true := by
  refine ⟨rfl, rfl, ?_, gridIds_len, ?_, ?_⟩
  · show (cameraEntity :: gridEntities).length = 1001
    rw [List.length_cons, gridEntities_len]
  · rw [gridIds_eq]
    exact ((List.nodup_range' 1 1000).map (fun a b h => by exact_mod_cast h))
  · rw [gridIds_eq, List.all_eq_true]
    intro q hq
    rw [List.mem_map] at hq
    obtain ⟨n, hn, rfl⟩ := hq
    rw [List.mem_range'_1] at hn
    rw [decide_eq_true_iff]
    constructor
    · exact_mod_cast hn.1
    · have : n ≤ 1000 := by omega
      exact_mod_cast this

end Lod

end Vibe
